import Mathlib

/-
Verification development for the heat-exchanger calculators of this repository:
the double-pipe pipe-selection optimizer (projects/dphx/script.js), the
double-pipe sizing calculator variant (second calculateDPHX source file), and
the shell-and-tube calculators (projects/sthx/script.js: the first
calculateSTHX, and the second script with runDesignIteration,
performKernRating, calculateDuty, calculateLMTD).

Modelling conventions, stated once here:

* JavaScript numbers are modelled by the type JSVal: NaN, plus and minus
  Infinity, and exact rational values.  Arithmetic on finite values is exact
  rational arithmetic (no floating-point rounding); the special-value rules
  (NaN propagation, 0/0 = NaN, x/0 = Infinity, 0 * Infinity = NaN, NaN
  comparing false, and so on) follow the ECMAScript Number semantics.  The
  negative zero of IEEE arithmetic is identified with zero.

* The transcendental library primitives Math.pow (for a positive finite base
  and non-integer exponent), Math.log (positive finite argument other than 1),
  Math.exp (finite nonzero argument), Math.sqrt (positive finite non-special
  argument) and the constant Math.PI are abstracted as an explicit parameter
  (structure MathOps) supplied to every model function.  All value-determined
  special cases (zero or infinite or NaN or negative bases, integer exponents,
  log 1 = 0, and so on) are computed exactly and do not consult the parameter.
  Theorems quantified over the MathOps parameter therefore hold in particular
  for the real library functions; concrete executions instantiate it.

* Rationals are represented by the type Frac (integer numerator, positive
  natural denominator, not necessarily reduced); equality and order of values
  are the semantic cross-multiplication predicates fracEq, fracLt, fracLe.
  This keeps every definition kernel-computable, so concrete runs are settled
  by decide.

* Missing or non-numeric form fields - parseFloat(undefined) being NaN, and
  the field || default idiom - are modelled by Option-typed input fields.
  Log entries record the numeric data interpolated into the log strings, not
  the surrounding prose; error strings are the source strings (shortened for
  exception messages).  A thrown JavaScript exception is modelled by the
  Except.error case of a function returning Except JSErr _; the try/catch
  wrappers convert it into an ordinary error-result object.
-/

/-- Exact rational with an explicitly positive denominator.  Values are not
kept in lowest terms; value-level equality is the predicate fracEq below. -/
structure Frac where
  n : Int
  d : Nat
  pos : 0 < d

instance : DecidableEq Frac := fun a b =>
  decidable_of_iff (a.n = b.n ∧ a.d = b.d) (by cases a; cases b; simp)

/-- Build a fraction from a numerator and a (positive) literal denominator. -/
def frc (n : Int) (d : Nat) : Frac :=
  ⟨n, max d 1, by omega⟩

def Frac.zero : Frac := frc 0 1
def Frac.one : Frac := frc 1 1

def Frac.add (a b : Frac) : Frac :=
  ⟨a.n * b.d + b.n * a.d, a.d * b.d, Nat.mul_pos a.pos b.pos⟩

def Frac.neg (a : Frac) : Frac := ⟨-a.n, a.d, a.pos⟩

def Frac.sub (a b : Frac) : Frac := a.add b.neg

def Frac.mul (a b : Frac) : Frac :=
  ⟨a.n * b.n, a.d * b.d, Nat.mul_pos a.pos b.pos⟩

/-- Multiplicative inverse; meaningful only when the numerator is nonzero
(the caller guards, mirroring the JavaScript division-by-zero special case). -/
def Frac.inv (a : Frac) : Frac :=
  if h : a.n = 0 then Frac.zero
  else ⟨if 0 < a.n then (a.d : Int) else -(a.d : Int), a.n.natAbs,
    Int.natAbs_pos.mpr h⟩

def Frac.div (a b : Frac) : Frac := a.mul b.inv

def Frac.abs (a : Frac) : Frac := ⟨(a.n.natAbs : Int), a.d, a.pos⟩

/-- Semantic equality of fraction values (cross multiplication). -/
def fracEq (a b : Frac) : Bool := a.n * (b.d : Int) = b.n * (a.d : Int)

/-- Semantic strict order of fraction values (cross multiplication). -/
def fracLt (a b : Frac) : Bool := a.n * (b.d : Int) < b.n * (a.d : Int)

/-- Semantic non-strict order of fraction values (cross multiplication). -/
def fracLe (a b : Frac) : Bool := a.n * (b.d : Int) ≤ b.n * (a.d : Int)

/-- Floor of a fraction value, as a fraction with denominator one. -/
def Frac.floor (a : Frac) : Frac := ⟨Int.fdiv a.n a.d, 1, Nat.one_pos⟩

/-- Ceiling of a fraction value, as a fraction with denominator one. -/
def Frac.ceil (a : Frac) : Frac := ⟨-(Int.fdiv (-a.n) a.d), 1, Nat.one_pos⟩

/-- Natural power (exact). -/
def Frac.powNat (a : Frac) (k : Nat) : Frac :=
  ⟨a.n ^ k, a.d ^ k, Nat.pos_pow_of_pos k a.pos⟩

/-- Integer power (exact); for a negative exponent the base must be nonzero,
which the callers guard. -/
def Frac.powInt (a : Frac) (k : Int) : Frac :=
  if 0 ≤ k then a.powNat k.natAbs else (a.inv).powNat k.natAbs

/-- Whether a fraction value is an integer, and its integer value. -/
def Frac.isInt (a : Frac) : Bool := a.n % (a.d : Int) = 0
def Frac.toInt (a : Frac) : Int := Int.fdiv a.n a.d

/-- The abstracted transcendental primitives of the JavaScript Math library,
consulted only outside the value-determined special cases; see the header. -/
structure MathOps where
  pow : Frac → Frac → Frac
  log : Frac → Frac
  exp : Frac → Frac
  sqrt : Frac → Frac
  pi : Frac

/-- A JavaScript number: NaN, a signed infinity (true = positive), or a finite
exact value. -/
inductive JSVal where
  | nan : JSVal
  | inf : Bool → JSVal
  | num : Frac → JSVal
deriving DecidableEq

def JSVal.isNaN : JSVal → Bool
  | .nan => true
  | _ => false

/-- JavaScript truthiness of a number: false exactly for 0 and NaN. -/
def jsFalsy : JSVal → Bool
  | .nan => true
  | .num a => a.n = 0
  | .inf _ => false

/-- The a || b idiom on numbers (also covering an absent field modelled as
NaN). -/
def jsOr (a b : JSVal) : JSVal := if jsFalsy a then b else a

def jsAdd : JSVal → JSVal → JSVal
  | .nan, _ => .nan
  | _, .nan => .nan
  | .inf s, .inf t => if s = t then .inf s else .nan
  | .inf s, .num _ => .inf s
  | .num _, .inf t => .inf t
  | .num a, .num b => .num (a.add b)

def jsNegV : JSVal → JSVal
  | .nan => .nan
  | .inf s => .inf (!s)
  | .num a => .num a.neg

def jsSub (a b : JSVal) : JSVal := jsAdd a (jsNegV b)

def jsMul : JSVal → JSVal → JSVal
  | .nan, _ => .nan
  | _, .nan => .nan
  | .inf s, .inf t => .inf (s = t)
  | .inf s, .num b => if b.n = 0 then .nan else .inf (s = (0 < b.n))
  | .num a, .inf t => if a.n = 0 then .nan else .inf (t = (0 < a.n))
  | .num a, .num b => .num (a.mul b)

def jsDiv : JSVal → JSVal → JSVal
  | .nan, _ => .nan
  | _, .nan => .nan
  | .inf _, .inf _ => .nan
  | .inf s, .num b => if b.n = 0 then .inf s else .inf (s = (0 < b.n))
  | .num _, .inf _ => .num Frac.zero
  | .num a, .num b =>
    if b.n = 0 then (if a.n = 0 then .nan else .inf (0 < a.n))
    else .num (a.div b)

def jsLt : JSVal → JSVal → Bool
  | .nan, _ => false
  | _, .nan => false
  | .inf s, .inf t => !s && t
  | .inf s, .num _ => !s
  | .num _, .inf t => t
  | .num a, .num b => fracLt a b

def jsLe : JSVal → JSVal → Bool
  | .nan, _ => false
  | _, .nan => false
  | .inf s, .inf t => !s || t
  | .inf s, .num _ => !s
  | .num _, .inf t => t
  | .num a, .num b => fracLe a b

def jsGt (a b : JSVal) : Bool := jsLt b a
def jsGe (a b : JSVal) : Bool := jsLe b a

/-- The strict equality test === on numbers (NaN unequal to everything). -/
def jsStrictEq : JSVal → JSVal → Bool
  | .nan, _ => false
  | _, .nan => false
  | .inf s, .inf t => s = t
  | .num a, .num b => fracEq a b
  | _, _ => false

/-- Sameness of modelled values, used to state theorems: like strict equality
but with NaN identified with itself. -/
def jsSame : JSVal → JSVal → Bool
  | .nan, .nan => true
  | .inf s, .inf t => s = t
  | .num a, .num b => fracEq a b
  | _, _ => false

def jsAbs : JSVal → JSVal
  | .nan => .nan
  | .inf _ => .inf true
  | .num a => .num a.abs

def jsCeil : JSVal → JSVal
  | .nan => .nan
  | .inf s => .inf s
  | .num a => .num a.ceil

def jsFloor : JSVal → JSVal
  | .nan => .nan
  | .inf s => .inf s
  | .num a => .num a.floor

/-- Math.pow following the ECMAScript exponentiation cases; the abstract
parameter is consulted only for a positive finite base, finite non-integer
exponent. -/
def jsPow (M : MathOps) : JSVal → JSVal → JSVal
  | x, .num b =>
    if b.n = 0 then .num Frac.one
    else
      match x with
      | .nan => .nan
      | .inf s =>
        if s then (if 0 < b.n then .inf true else .num Frac.zero)
        else
          if 0 < b.n then
            (if b.isInt && b.toInt % 2 ≠ 0 then .inf false else .inf true)
          else .num Frac.zero
      | .num a =>
        if a.n = 0 then (if 0 < b.n then .num Frac.zero else .inf true)
        else if b.isInt then .num (a.powInt b.toInt)
        else if 0 < a.n then .num (M.pow a b)
        else .nan
  | _, .nan => .nan
  | x, .inf t =>
    match x with
    | .nan => .nan
    | .inf _ => if t then .inf true else .num Frac.zero
    | .num a =>
      if a.n.natAbs = a.d then .nan
      else if (a.d : Int) < a.n.natAbs then
        (if t then .inf true else .num Frac.zero)
      else (if t then .num Frac.zero else .inf true)

/-- Math.log; the abstract parameter is consulted only for a positive finite
argument other than 1. -/
def jsLog (M : MathOps) : JSVal → JSVal
  | .nan => .nan
  | .inf s => if s then .inf true else .nan
  | .num a =>
    if a.n ≤ 0 then (if a.n = 0 then .inf false else .nan)
    else if fracEq a Frac.one then .num Frac.zero
    else .num (M.log a)

/-- Math.exp; the abstract parameter is consulted only for a finite nonzero
argument. -/
def jsExp (M : MathOps) : JSVal → JSVal
  | .nan => .nan
  | .inf s => if s then .inf true else .num Frac.zero
  | .num a => if a.n = 0 then .num Frac.one else .num (M.exp a)

/-- Math.sqrt; the abstract parameter is consulted only for a positive finite
argument. -/
def jsSqrt (M : MathOps) : JSVal → JSVal
  | .nan => .nan
  | .inf s => if s then .inf true else .nan
  | .num a =>
    if a.n < 0 then .nan
    else if a.n = 0 then .num Frac.zero
    else .num (M.sqrt a)

/-- Lift an optional parsed field: parseFloat of a missing field is NaN. -/
def toJS : Option Frac → JSVal
  | none => .nan
  | some q => .num q

/-- Shorthand for finite literals inside model code. -/
def jn (n : Int) (d : Nat) : JSVal := .num (frc n d)

/- Generic first-strict-improvement selection fold, the shape of the
best-candidate bookkeeping in the double-pipe optimizer loop: the running
minimum is replaced only on a strict jsLt improvement, so the fold keeps the
first candidate attaining the final minimum. -/

section SelFold

variable {α : Type} (feas : α → Bool) (key : α → JSVal)

def selStep (st : Option α × JSVal) (c : α) : Option α × JSVal :=
  if feas c && jsLt (key c) st.2 then (some c, key c) else st

def selFold (l : List α) (st : Option α × JSVal) : Option α × JSVal :=
  l.foldl (selStep feas key) st

end SelFold

/-- A JavaScript exception escaping a function (only TypeError arises in the
modelled code, from a property access on null or undefined). -/
inductive JSErr where
  | typeError (msg : String)

def JSErr.message : JSErr → String
  | .typeError m => m

def exOk {α : Type} : Except JSErr α → Bool
  | .ok _ => true
  | .error _ => false

namespace Dphx

/- Model of src/projects/dphx/script.js: the double-pipe pipe-selection
optimizer calculateDPHX. -/

/-- One catalog entry of STANDARD_PIPES (outer and inner diameter, metres). -/
structure Pipe where
  od : Frac
  id : Frac

/-- The Schedule 40 catalog, in source order (ascending nominal size). -/
def STANDARD_PIPES : List Pipe := [
  ⟨frc 213 10000, frc 158 10000⟩,
  ⟨frc 267 10000, frc 209 10000⟩,
  ⟨frc 334 10000, frc 266 10000⟩,
  ⟨frc 422 10000, frc 351 10000⟩,
  ⟨frc 483 10000, frc 409 10000⟩,
  ⟨frc 603 10000, frc 525 10000⟩,
  ⟨frc 730 10000, frc 627 10000⟩,
  ⟨frc 889 10000, frc 779 10000⟩,
  ⟨frc 1143 10000, frc 1023 10000⟩,
  ⟨frc 1683 10000, frc 1541 10000⟩]

def dummyPipe : Pipe := ⟨frc 0 1, frc 0 1⟩

/-- Parsed form input of calculateDPHX; a missing (or unparseable) field is
none, matching parseFloat returning NaN there. -/
structure DPHXInput where
  m_h : Option Frac
  T_h_in : Option Frac
  T_h_out : Option Frac
  m_c : Option Frac
  T_c_in : Option Frac
  T_c_out : Option Frac
  Cp_h : Option Frac
  rho_h : Option Frac
  mu_h : Option Frac
  k_h : Option Frac
  Cp_c : Option Frac
  rho_c : Option Frac
  mu_c : Option Frac
  k_c : Option Frac
  flow_type : Option Int
  Rf_h : Option Frac
  Rf_c : Option Frac
  allowable_dp_inner : Option Frac

/-- Data the optimizer loop reads, fixed before the pipe-pair iteration. -/
structure SearchEnv where
  Q : JSVal
  LMTD : JSVal
  m_h : JSVal
  m_c : JSVal
  T_h_out : JSVal
  T_c_out : JSVal
  Cp_h : JSVal
  rho_h : JSVal
  mu_h : JSVal
  k_h : JSVal
  Cp_c : JSVal
  rho_c : JSVal
  mu_c : JSVal
  k_c : JSVal
  foul_h : JSVal
  foul_c : JSVal
  max_dp : JSVal

/-- The per-trial values of one (inner pipe, outer pipe) pair; the fields are
those stored into best_design, plus the enumeration indices of the pair. -/
structure Candidate where
  innerIdx : Nat
  outerIdx : Nat
  U : JSVal
  A_req : JSVal
  L_req : JSVal
  dP_in : JSVal
  dP_ann : JSVal
  Re_in : JSVal
  Re_ann : JSVal
  h_in : JSVal
  h_ann : JSVal
  v_in : JSVal
  v_ann : JSVal

/-- One Trial Log line: the pair and the values interpolated into the
logged string (U, required length, inner pressure drop). -/
structure DPHXLog where
  innerIdx : Nat
  outerIdx : Nat
  U : JSVal
  L_req : JSVal
  dP_in : JSVal

/-- The body of the inner optimizer loop for one pair, after the clearance
check: geometry, velocities, Reynolds and Prandtl numbers, Dittus-Boelter
Nusselt numbers, film and overall coefficients, required area and length,
Blasius friction factors and pressure drops (source lines 126-178). -/
def evalPair (M : MathOps) (env : SearchEnv) (ij : Nat × Nat) : Candidate :=
  let ip := STANDARD_PIPES.getD ij.1 dummyPipe
  let op := STANDARD_PIPES.getD ij.2 dummyPipe
  let di := JSVal.num ip.id
  let do_in := JSVal.num ip.od
  let Di := JSVal.num op.id
  let A_inner := jsDiv (jsMul (jsMul (.num M.pi) di) di) (jn 4 1)
  let A_ann := jsDiv (jsMul (.num M.pi) (jsSub (jsMul Di Di) (jsMul do_in do_in))) (jn 4 1)
  let De_ann := jsDiv (jsSub (jsMul Di Di) (jsMul do_in do_in)) do_in
  let v_inner := jsDiv env.m_h (jsMul env.rho_h A_inner)
  let v_ann := jsDiv env.m_c (jsMul env.rho_c A_ann)
  let Re_inner := jsDiv (jsMul (jsMul env.rho_h v_inner) di) env.mu_h
  let Re_ann := jsDiv (jsMul (jsMul env.rho_c v_ann) De_ann) env.mu_c
  let Pr_h := jsDiv (jsMul env.Cp_h env.mu_h) env.k_h
  let Pr_c := jsDiv (jsMul env.Cp_c env.mu_c) env.k_c
  let Nu_inner := jsMul (jsMul (jn 23 1000) (jsPow M Re_inner (jn 4 5))) (jsPow M Pr_h (jn 33 100))
  let Nu_ann := jsMul (jsMul (jn 23 1000) (jsPow M Re_ann (jn 4 5))) (jsPow M Pr_c (jn 33 100))
  let hi := jsDiv (jsMul Nu_inner env.k_h) di
  let ho := jsDiv (jsMul Nu_ann env.k_c) De_ann
  let U := jsDiv (jn 1 1)
    (jsAdd (jsAdd (jsAdd (jsMul (jsDiv do_in di) (jsDiv (jn 1 1) hi))
      (jsMul (jsDiv do_in di) env.foul_h)) env.foul_c) (jsDiv (jn 1 1) ho))
  let A_req := jsDiv env.Q (jsMul U env.LMTD)
  let L_req := jsDiv A_req (jsMul (.num M.pi) do_in)
  let f_in := jsMul (jn 316 1000) (jsPow M Re_inner (jn (-1) 4))
  let f_ann := jsMul (jn 316 1000) (jsPow M Re_ann (jn (-1) 4))
  let dP_in := jsMul (jsMul (jsMul (jsMul (jsMul f_in (jsDiv L_req di)) (jn 1 2)) env.rho_h) v_inner) v_inner
  let Dh_ann := jsSub Di do_in
  let dP_ann := jsMul (jsMul (jsMul (jsMul (jsMul f_ann (jsDiv L_req Dh_ann)) (jn 1 2)) env.rho_c) v_ann) v_ann
  ⟨ij.1, ij.2, U, A_req, L_req, dP_in, dP_ann, Re_inner, Re_ann, hi, ho, v_inner, v_ann⟩

/-- The VALIDATION step of a trial: velocity under the hard-coded 4.0 m/s on
both sides, and pressure drop on both sides under the single caller limit
(source lines 180-182). -/
def feasibleB (env : SearchEnv) (c : Candidate) : Bool :=
  (jsLt c.v_in (jn 4 1) && jsLt c.v_ann (jn 4 1)) &&
  (jsLt c.dP_in env.max_dp && jsLt c.dP_ann env.max_dp)

def logOf (c : Candidate) : DPHXLog :=
  ⟨c.innerIdx, c.outerIdx, c.U, c.L_req, c.dP_in⟩

/-- All ordered index pairs of the nested loops: i over 0..8, j over i+1..9,
in enumeration order. -/
def allPairs : List (Nat × Nat) :=
  (List.range 9).bind (fun i => ((List.range 10).filter (fun j => i < j)).map (fun j => (i, j)))

/-- The pairs surviving the 5 mm annular-clearance check - the continue on
(Di - do_in) < 0.005 happens before anything, including the log push. -/
def clearanceOK (ij : Nat × Nat) : Bool :=
  let ip := STANDARD_PIPES.getD ij.1 dummyPipe
  let op := STANDARD_PIPES.getD ij.2 dummyPipe
  !(fracLt (op.id.sub ip.od) (frc 5 1000))

def clearPairs : List (Nat × Nat) := allPairs.filter clearanceOK

/-- The result object of calculateDPHX: an early validation error (no logs
attached), the no-feasible-design error carrying the trial log, or the best
design with the trial log. -/
inductive DPHXResult where
  | error (msg : String)
  | errorLogs (msg : String) (logs : List DPHXLog)
  | success (best : Candidate) (logs : List DPHXLog)

def key (c : Candidate) : JSVal := c.A_req

def searchStep (M : MathOps) (env : SearchEnv)
    (st : (Option Candidate × JSVal) × List DPHXLog) (ij : Nat × Nat) :
    (Option Candidate × JSVal) × List DPHXLog :=
  let c := evalPair M env ij
  (selStep (feasibleB env) key st.1 c, st.2 ++ [logOf c])

def noFeasMsg : String :=
  "No standard pipe combination met the constraints (dP or Velocity). Try relaxing dP limits or increasing Flow Rate."

/-- The optimizer loop (source lines 112-229): every clearance-passing pair is
rated and logged; a feasible pair replaces the incumbent only on a strictly
smaller required area (min_cost_metric starts at Infinity); with no incumbent
at the end the no-feasible error is returned with the logs. -/
def searchPhase (M : MathOps) (env : SearchEnv) : DPHXResult :=
  let final := clearPairs.foldl (searchStep M env) ((none, JSVal.inf true), [])
  match final.1.1 with
  | none => .errorLogs noFeasMsg final.2
  | some b => .success b final.2

/-- The LMTD of the optimizer (source line 102): the equal-difference case is
guarded by === and returns dt1 itself. -/
def dphxLMTD (M : MathOps) (dt1 dt2 : JSVal) : JSVal :=
  if jsStrictEq dt1 dt2 then dt1
  else jsDiv (jsSub dt1 dt2) (jsLog M (jsDiv dt1 dt2))

/-- Energy balance and unknown solving (source lines 57-91), returning
(Q, m_h, m_c, T_h_out, T_c_out) or an early error. -/
def energyPhase (d : DPHXInput) : Except String (JSVal × JSVal × JSVal × JSVal × JSVal) :=
  let Cp_h := jsMul (toJS d.Cp_h) (jn 1000 1)
  let Cp_c := jsMul (toJS d.Cp_c) (jn 1000 1)
  let T_h_in := toJS d.T_h_in
  let T_c_in := toJS d.T_c_in
  let tho := d.T_h_out.getD (frc (-1) 1)
  let tco := d.T_c_out.getD (frc (-1) 1)
  match d.m_h, d.m_c with
  | none, none => .error ("Provide at least one Mass Flow Rate.")
  | none, some mc =>
    if fracEq tho (frc (-1) 1) || fracEq tco (frc (-1) 1) then
      .error ("To find Mass Flow, ALL 4 temperatures must be known.")
    else
      let Q := jsMul (jsMul (.num mc) Cp_c) (jsSub (.num tco) T_c_in)
      let mh := jsDiv Q (jsMul Cp_h (jsSub T_h_in (.num tho)))
      .ok (Q, mh, .num mc, .num tho, .num tco)
  | some mh, none =>
    if fracEq tho (frc (-1) 1) || fracEq tco (frc (-1) 1) then
      .error ("To find Mass Flow, ALL 4 temperatures must be known.")
    else
      let Q := jsMul (jsMul (.num mh) Cp_h) (jsSub T_h_in (.num tho))
      let mc := jsDiv Q (jsMul Cp_c (jsSub (.num tco) T_c_in))
      .ok (Q, .num mh, mc, .num tho, .num tco)
  | some mh, some mc =>
    if fracEq tho (frc (-1) 1) then
      let Q := jsMul (jsMul (.num mc) Cp_c) (jsSub (.num tco) T_c_in)
      let thoV := jsSub T_h_in (jsDiv Q (jsMul (.num mh) Cp_h))
      .ok (Q, .num mh, .num mc, thoV, .num tco)
    else if fracEq tco (frc (-1) 1) then
      let Q := jsMul (jsMul (.num mh) Cp_h) (jsSub T_h_in (.num tho))
      let tcoV := jsAdd T_c_in (jsDiv Q (jsMul (.num mc) Cp_c))
      .ok (Q, .num mh, .num mc, .num tho, tcoV)
    else
      let Qh := jsMul (jsMul (.num mh) Cp_h) (jsSub T_h_in (.num tho))
      let Qc := jsMul (jsMul (.num mc) Cp_c) (jsSub (.num tco) T_c_in)
      if jsGt (jsAbs (jsSub Qh Qc)) (jsMul (jn 5 100) Qh) then
        .error ("Energy Balance Mismatch (>5%)")
      else .ok (Qh, .num mh, .num mc, .num tho, .num tco)

/-- The environment the optimizer loop reads, assembled from the parsed
input and the energy-balance results; the single pressure-drop limit comes
from allowable_dp_inner with the 70000 Pa fallback of the || idiom. -/
def mkEnv (d : DPHXInput) (Q m_h m_c T_h_out T_c_out LMTD : JSVal) :
    SearchEnv :=
  { Q := Q, LMTD := LMTD, m_h := m_h, m_c := m_c,
    T_h_out := T_h_out, T_c_out := T_c_out,
    Cp_h := jsMul (toJS d.Cp_h) (jn 1000 1), rho_h := toJS d.rho_h,
    mu_h := toJS d.mu_h, k_h := toJS d.k_h,
    Cp_c := jsMul (toJS d.Cp_c) (jn 1000 1), rho_c := toJS d.rho_c,
    mu_c := toJS d.mu_c, k_c := toJS d.k_c,
    foul_h := .num (d.Rf_h.getD (frc 2 10000)),
    foul_c := .num (d.Rf_c.getD (frc 2 10000)),
    max_dp := .num (d.allowable_dp_inner.getD (frc 70000 1)) }

/-- The body of calculateDPHX for a non-null input object: energy balance,
temperature-cross check, LMTD, then the optimizer (source lines 30-229). -/
def calcBody (M : MathOps) (d : DPHXInput) : DPHXResult :=
  match energyPhase d with
  | .error e => .error e
  | .ok (Q, m_h, m_c, T_h_out, T_c_out) =>
    let T_h_in := toJS d.T_h_in
    let T_c_in := toJS d.T_c_in
    let flow_type : Int := d.flow_type.getD 1
    if (flow_type == 1) && (jsLt T_h_out T_c_in || jsLt T_h_in T_c_out) then
      .error ("Temp Cross in Counter-Current!")
    else
      let dt1 := if flow_type == 1 then jsSub T_h_in T_c_out else jsSub T_h_in T_c_in
      let dt2 := if flow_type == 1 then jsSub T_h_out T_c_in else jsSub T_h_out T_c_out
      if jsLe dt1 (jn 0 1) || jsLe dt2 (jn 0 1) then
        .error ("Invalid LMTD (Check Temps)")
      else
        searchPhase M (mkEnv d Q m_h m_c T_h_out T_c_out (dphxLMTD M dt1 dt2))

/-- The try-block of calculateDPHX: a null data object throws a TypeError on
the first property read; otherwise the body runs to a result. -/
def bodyDPHX (M : MathOps) (dat : Option DPHXInput) : Except JSErr DPHXResult :=
  match dat with
  | none => .error (.typeError ("TypeError: Cannot read properties of null"))
  | some d => .ok (calcBody M d)

/-- The exported calculateDPHX: the whole body is wrapped in try/catch, and a
thrown exception is converted into an error-string result object. -/
def calculateDPHX (M : MathOps) (dat : Option DPHXInput) : Except JSErr DPHXResult :=
  match bodyDPHX M dat with
  | .error e => .ok (.error (e.message))
  | .ok r => .ok r

def resultLogs : DPHXResult → List DPHXLog
  | .error _ => []
  | .errorLogs _ l => l
  | .success _ l => l

def resultBest : DPHXResult → Option Candidate
  | .success b _ => some b
  | _ => none

end Dphx

namespace Sthx2

/- Model of the second shell-and-tube script (calculateSTHX exposed as
calculateSTHX_Pro): runDesignIteration, performKernRating, calculateDuty and
calculateLMTD. -/

/-- A fluid record of the second shell-and-tube script (fields read by the
core: m, rho, mu, cp, k, Tin, Tout; mu, P and fouling are also read by the
auto-allocation heuristic).  A missing field is none. -/
structure FluidT where
  m : Option Frac
  rho : Option Frac
  mu : Option Frac
  cp : Option Frac
  k : Option Frac
  Tin : Option Frac
  Tout : Option Frac
  P : Option Frac
  fouling : Option Frac

/-- Truthiness of a possibly missing numeric field (undefined and 0 are
falsy). -/
def truthy (o : Option Frac) : Bool :=
  match o with
  | none => false
  | some x => x.n != 0

/-- calculateDuty (source lines 494-500): hot side if its mass flow and both
temperatures are truthy, else cold side, else the hard-coded 100000 W
placeholder. -/
def calculateDuty (Hot Cold : FluidT) : JSVal :=
  if truthy Hot.m && truthy Hot.Tin && truthy Hot.Tout then
    jsMul (jsMul (toJS Hot.m) (toJS Hot.cp)) (jsSub (toJS Hot.Tin) (toJS Hot.Tout))
  else if truthy Cold.m && truthy Cold.Tin && truthy Cold.Tout then
    jsMul (jsMul (toJS Cold.m) (toJS Cold.cp)) (jsSub (toJS Cold.Tout) (toJS Cold.Tin))
  else jn 100000 1

/-- calculateLMTD (source lines 502-511): the counter-current formula with no
equal-difference guard, times the hard-coded Ft = 0.9.  The passes argument
of the source is unused there and omitted here. -/
def calculateLMTD (M : MathOps) (Hot Cold : FluidT) : JSVal × Frac :=
  let dt1 := jsSub (toJS Hot.Tin) (toJS Cold.Tout)
  let dt2 := jsSub (toJS Hot.Tout) (toJS Cold.Tin)
  let lmtd := jsDiv (jsSub dt1 dt2) (jsLog M (jsDiv dt1 dt2))
  (jsMul lmtd (jn 9 10), frc 9 10)

/-- TEMA_STANDARDS.shells: nominal inch sizes times 0.0254. -/
def TEMA_shells : List Frac :=
  ([8, 10, 12, 14, 16, 18, 20, 24, 30, 36, 42, 48, 60] : List Int).map
    (fun d => (frc d 1).mul (frc 254 10000))

/-- The geometry record read by performKernRating. -/
structure KernGeom where
  shell_ID : JSVal
  tube_od : JSVal
  tube_id : JSVal
  tube_length : JSVal
  total_tubes : JSVal
  tube_passes : JSVal
  tube_pitch : JSVal
  pitch_square : Bool
  baffle_spacing : JSVal
  baffles_n : JSVal
  Rf_t : JSVal
  Rf_s : JSVal

structure KernGeometry where
  Ds : JSVal
  Nt : JSVal
  B : JSVal
  Lt : JSVal
  do_t : JSVal

/-- The result record of performKernRating (source lines 481-490). -/
structure KernRating where
  U_clean : JSVal
  U_dirty : JSVal
  h_s : JSVal
  h_t : JSVal
  dP_s : JSVal
  dP_t : JSVal
  Re_s : JSVal
  Re_t : JSVal
  Vt : JSVal
  Vs : JSVal
  Area_Required : JSVal
  Area_Provided : JSVal
  Overdesign_Pct : JSVal
  LMTD : JSVal
  Q : JSVal
  Geometry : KernGeometry

/-- performKernRating (source lines 399-491): tube-side Dittus-Boelter,
shell-side Kern correlations, overall coefficients with the steel wall term,
duty, LMTD, areas and overdesign.  No input validation of any kind is
performed and no failure path exists. -/
def performKernRating (M : MathOps) (ShellFluid TubeFluid : FluidT)
    (Geom : KernGeom) : KernRating :=
  let Ds := Geom.shell_ID
  let do_t := Geom.tube_od
  let di_t := Geom.tube_id
  let Lt := Geom.tube_length
  let Nt := Geom.total_tubes
  let Np := Geom.tube_passes
  let Pitch := Geom.tube_pitch
  let B := jsOr Geom.baffle_spacing (jsMul Ds (jn 4 10))
  let Nb := jsOr Geom.baffles_n (jsSub (jsCeil (jsDiv Lt B)) (jn 1 1))
  let at_ := jsMul (jsDiv (jsMul (jsMul (.num M.pi) di_t) di_t) (jn 4 1)) (jsDiv Nt Np)
  let m_t := toJS TubeFluid.m
  let Gt := jsDiv m_t at_
  let Vt := jsDiv Gt (toJS TubeFluid.rho)
  let Re_t := jsDiv (jsMul (jsMul (toJS TubeFluid.rho) Vt) di_t) (toJS TubeFluid.mu)
  let Pr_t := jsDiv (jsMul (toJS TubeFluid.cp) (toJS TubeFluid.mu)) (toJS TubeFluid.k)
  let Nu_t := jsMul (jsMul (jn 23 1000) (jsPow M Re_t (jn 4 5))) (jsPow M Pr_t (jn 33 100))
  let h_t := jsDiv (jsMul Nu_t (toJS TubeFluid.k)) di_t
  let f_t := jsMul (jn 46 1000) (jsPow M Re_t (jn (-1) 5))
  let dP_t_frict := jsMul (jsDiv (jsMul (jsMul (jsMul (jn 4 1) f_t) Lt) Np) di_t)
    (jsMul (jsMul (jsMul (jn 1 2) (toJS TubeFluid.rho)) Vt) Vt)
  let dP_t_return := jsMul (jsMul (jn 4 1) Np)
    (jsMul (jsMul (jsMul (jn 1 2) (toJS TubeFluid.rho)) Vt) Vt)
  let dP_t := jsAdd dP_t_frict dP_t_return
  let De :=
    if Geom.pitch_square then
      jsDiv (jsMul (jn 4 1) (jsSub (jsPow M Pitch (jn 2 1))
        (jsMul (jsDiv (.num M.pi) (jn 4 1)) (jsPow M do_t (jn 2 1)))))
        (jsMul (.num M.pi) do_t)
    else
      jsDiv (jsMul (jn 4 1) (jsSub (jsMul (jsMul (jn 1 2) (jn 866 1000)) (jsPow M Pitch (jn 2 1)))
        (jsMul (jsMul (jn 1 2) (jsDiv (.num M.pi) (jn 4 1))) (jsPow M do_t (jn 2 1)))))
        (jsMul (jsMul (jn 1 2) (.num M.pi)) do_t)
  let Clearance := jsSub Pitch do_t
  let As := jsDiv (jsMul (jsMul Ds Clearance) B) Pitch
  let Gs := jsDiv (toJS ShellFluid.m) As
  let Vs := jsDiv Gs (toJS ShellFluid.rho)
  let Re_s := jsDiv (jsMul Gs De) (toJS ShellFluid.mu)
  let Pr_s := jsDiv (jsMul (toJS ShellFluid.cp) (toJS ShellFluid.mu)) (toJS ShellFluid.k)
  let Nu_s := jsMul (jsMul (jn 36 100) (jsPow M Re_s (jn 55 100))) (jsPow M Pr_s (jn 33 100))
  let h_s := jsDiv (jsMul Nu_s (toJS ShellFluid.k)) De
  let f_s := jsExp M (jsSub (jn 576 1000) (jsMul (jn 19 100) (jsLog M Re_s)))
  let dP_s := jsDiv (jsMul (jsMul (jsMul f_s (jsPow M Gs (jn 2 1))) Ds) (jsAdd Nb (jn 1 1)))
    (jsMul (jsMul (jn 2 1) (toJS ShellFluid.rho)) De)
  let Rft := jsOr Geom.Rf_t (jn 0 1)
  let Rfs := jsOr Geom.Rf_s (jn 0 1)
  let Inv_U_clean := jsAdd (jsAdd (jsDiv (jn 1 1) h_s)
    (jsMul (jsDiv do_t di_t) (jsDiv (jn 1 1) h_t)))
    (jsDiv (jsMul do_t (jsLog M (jsDiv do_t di_t))) (jsMul (jn 2 1) (jn 50 1)))
  let Inv_U_dirty := jsAdd (jsAdd Inv_U_clean Rfs) (jsMul (jsDiv do_t di_t) Rft)
  let U_clean := jsDiv (jn 1 1) Inv_U_clean
  let U_dirty := jsDiv (jn 1 1) Inv_U_dirty
  let Q := calculateDuty ShellFluid TubeFluid
  let LMTD := (calculateLMTD M ShellFluid TubeFluid).1
  let A_req := jsDiv Q (jsMul U_dirty LMTD)
  let A_prov := jsMul (jsMul (jsMul (.num M.pi) do_t) Lt) Nt
  let Overdesign := jsMul (jsDiv (jsSub A_prov A_req) A_req) (jn 100 1)
  ⟨U_clean, U_dirty, h_s, h_t, dP_s, dP_t, Re_s, Re_t, Vt, Vs,
    A_req, A_prov, Overdesign, LMTD, Q, ⟨Ds, Nt, B, Lt, do_t⟩⟩

/-- Snapping the estimated shell diameter to the catalog (source line 348):
the first standard shell at least the estimate, or silently the largest
standard size if the estimate exceeds all of them. -/
def shellSnap (dsEst : JSVal) : Frac :=
  match TEMA_shells.find? (fun s => jsGe (.num s) dsEst) with
  | some s => s
  | none => TEMA_shells.getD (TEMA_shells.length - 1) (frc 0 1)

/-- The design-mode parameter object D (defaults already merged by the
caller); shell_ID and total_tubes are the raw input fields that the design
loop overrides per trial. -/
structure DesignParams where
  U_guess : Option Frac
  shell_ID : JSVal
  total_tubes : JSVal
  tube_od : JSVal
  tube_id : JSVal
  tube_length : JSVal
  tube_pitch : JSVal
  tube_passes : JSVal
  pitch_square : Bool
  baffle_spacing : JSVal
  baffles_n : JSVal
  Rf_t : JSVal
  Rf_s : JSVal
  hot : FluidT
  cold : FluidT

def geomOfD (D : DesignParams) : KernGeom :=
  ⟨D.shell_ID, D.tube_od, D.tube_id, D.tube_length, D.total_tubes,
    D.tube_passes, D.tube_pitch, D.pitch_square, D.baffle_spacing,
    D.baffles_n, D.Rf_t, D.Rf_s⟩

/-- parseFloat(D.U_guess) || 500. -/
def startU (D : DesignParams) : Frac :=
  match D.U_guess with
  | none => frc 500 1
  | some x => if x.n = 0 then frc 500 1 else x

structure DesignTrial where
  Ds : Frac
  rating : KernRating
  err : JSVal

/-- One iteration of the design loop (source lines 331-365): required area
from the current guess, ideal tube count with the 5 percent margin, shell
estimate, snap to the catalog, repacked tube count, Kern rating of that
geometry, and the relative error of the calculated clean coefficient. -/
def designTrial (M : MathOps) (Shell Tube : FluidT) (D : DesignParams)
    (Q L U : JSVal) : DesignTrial :=
  let A_req := jsDiv Q (jsMul U L)
  let Nt_ideal := jsDiv A_req (jsMul (jsMul (.num M.pi) D.tube_od) D.tube_length)
  let Nt := jsCeil (jsMul Nt_ideal (jn 105 100))
  let Ds_est := jsMul (jsMul D.tube_pitch (jsSqrt M Nt)) (jn 11 10)
  let Ds_std := shellSnap Ds_est
  let Nt_real := jsFloor (jsMul (jn 785 1000) (jsPow M (jsDiv (.num Ds_std) D.tube_pitch) (jn 2 1)))
  let g0 := geomOfD D
  let rating := performKernRating M Shell Tube
    { g0 with
      shell_ID := JSVal.num Ds_std
      total_tubes := Nt_real
      baffle_spacing := jsMul (JSVal.num Ds_std) (jn 4 10) }
  ⟨Ds_std, rating, jsDiv (jsSub rating.U_clean U) U⟩

/-- A line of the design-mode log: the start banner, one iteration summary
(index, assumed U, snapped shell, calculated U, relative error), or the
max-iterations warning. -/
inductive DesignLog where
  | start
  | iter (idx : Nat) (Uass : JSVal) (Ds : Frac) (Ucalc : JSVal) (err : JSVal)
  | warn

/-- The value returned by runDesignIteration: the early duty error object, or
a rating object with the mutated converged flag and logs. -/
inductive DesignResult where
  | error (msg : String)
  | done (rating : KernRating) (converged : Bool) (logs : List DesignLog)

/-- The fallback geometry of the non-converged branch (source line 382):
spread of D with shell_ID 0.6 and total_tubes 200. -/
def fallbackGeom (D : DesignParams) : KernGeom :=
  let g := geomOfD D
  { g with shell_ID := jn 6 10, total_tubes := jn 200 1 }

/-- The design loop with its remaining iteration budget as fuel: with fuel
exhausted the fallback rating is returned flagged non-converged; otherwise
one trial runs, is logged, and either stops converged (relative error within
10 percent) or recurses on the damped average 0.5 old + 0.5 calculated. -/
def designAux (M : MathOps) (Shell Tube : FluidT) (D : DesignParams)
    (Q L : JSVal) : Nat → Nat → JSVal → List DesignLog → DesignResult
  | 0, _, _, logs =>
    .done (performKernRating M Shell Tube (fallbackGeom D)) false (logs ++ [.warn])
  | fuel+1, i, U, logs =>
    let t := designTrial M Shell Tube D Q L U
    let logs2 := logs ++ [.iter (i+1) U t.Ds t.rating.U_clean t.err]
    if jsLt (jsAbs t.err) (jn 1 10) then .done t.rating true logs2
    else designAux M Shell Tube D Q L fuel (i+1)
      (jsAdd (jsMul (jn 1 2) U) (jsMul (jn 1 2) t.rating.U_clean)) logs2

def MaxIter : Nat := 20

/-- runDesignIteration (source lines 305-388): duty (with its falsy check),
LMTD from the hot and cold records of D, then the bounded fixed-point loop
starting from parseFloat(D.U_guess) || 500. -/
def runDesignIteration (M : MathOps) (ShellFluid TubeFluid : FluidT)
    (D : DesignParams) : DesignResult :=
  let Q := calculateDuty ShellFluid TubeFluid
  if jsFalsy Q then .error ("Insufficient thermal data to calc Duty (Q).")
  else
    let L := (calculateLMTD M D.hot D.cold).1
    designAux M ShellFluid TubeFluid D Q L MaxIter 0 (.num (startU D)) [.start]

def isIter : DesignLog → Bool
  | .iter _ _ _ _ _ => true
  | _ => false

def iterCount (l : List DesignLog) : Nat := (l.filter isIter).length

def resLogs : DesignResult → List DesignLog
  | .error _ => []
  | .done _ _ l => l

def resConverged : DesignResult → Option Bool
  | .error _ => none
  | .done _ c _ => some c

def resRating : DesignResult → Option KernRating
  | .error _ => none
  | .done r _ _ => some r

def iterCountOf (r : DesignResult) : Nat := iterCount (resLogs r)

end Sthx2

namespace Dphx2

/- Model of the second calculateDPHX source file (double-pipe sizing with a
chosen pipe and bounded adjustment loops). -/

/-- Parsed form input; a missing field is none. -/
structure Input where
  m_h : Option Frac
  Cp_h : Option Frac
  T_h_in : Option Frac
  rho_h : Option Frac
  mu_h : Option Frac
  k_h : Option Frac
  m_c : Option Frac
  Cp_c : Option Frac
  T_c_in : Option Frac
  rho_c : Option Frac
  mu_c : Option Frac
  k_c : Option Frac
  T_h_out : Option Frac
  T_c_out : Option Frac
  flow_type : Option Int
  U_assumed : Option Frac
  pipe_choice : Option Int
  pipe_size_idx : Option Int
  d_o_custom : Option Frac
  id_choice : Option Int
  d_i_custom : Option Frac
  D_o : Option Frac
  foul_choice : Option Int
  Rf_h : Option Frac
  Rf_c : Option Frac
  allowable_dp_inner : Option Frac
  allowable_dp_ann : Option Frac

/-- A log line: a U-iteration summary or a pressure-drop iteration summary
(the numeric data of the pushed strings). -/
inductive P1Log where
  | uiter (n : Nat) (U Ucalc diff : JSVal)
  | dpiter (n : Nat) (dpin dpann : JSVal)

/-- The success result object (source lines 287-312). -/
structure Output where
  T_h_out : JSVal
  T_c_out : JSVal
  Q : JSVal
  LMTD : JSVal
  A_required : JSVal
  pipe_name : String
  d_o : JSVal
  d_i : JSVal
  D_o : JSVal
  L_required : JSVal
  v_inner : JSVal
  v_annulus : JSVal
  h_inner : JSVal
  h_annulus : JSVal
  U_calculated : JSVal
  U_assumed : JSVal
  deltaP_inner : JSVal
  deltaP_annulus : JSVal
  m_h_calc : JSVal
  m_c_calc : JSVal
  logs : List P1Log
  U_valid : Bool
  dp_valid : Bool

inductive Result where
  | error (msg : String)
  | success (out : Output)

/-- The LMTD block (source lines 164-173): a guarded branch returns deltaT1
itself when the differences are equal (or within 1e-5), errors on a
non-positive difference, and otherwise uses the log-mean formula. -/
def lmtdBlock (M : MathOps) (d1 d2 : JSVal) : Except String JSVal :=
  if jsLe d1 (jn 0 1) || jsLe d2 (jn 0 1) || jsStrictEq d1 d2 then
    (if jsLt (jsAbs (jsSub d1 d2)) (jn 1 100000) then .ok d1
     else .error ("Invalid temperature difference for LMTD calculation."))
  else .ok (jsDiv (jsSub d1 d2) (jsLog M (jsDiv d1 d2)))

/-- The values fixed before the two adjustment loops. -/
structure Ctx where
  m_h : JSVal
  rho_h : JSVal
  mu_h : JSVal
  Cp_h : JSVal
  k_h : JSVal
  m_c : JSVal
  rho_c : JSVal
  mu_c : JSVal
  Cp_c : JSVal
  k_c : JSVal
  Rf_h : JSVal
  Rf_c : JSVal
  U : JSVal
  d_o : JSVal
  L_required : JSVal
  dp_inner_lim : Option Frac
  dp_ann_lim : Option Frac

structure UIterOut where
  h_inner : JSVal
  h_annulus : JSVal
  U_calculated : JSVal
  v_inner : JSVal
  v_annulus : JSVal
  converged : Bool
  di2 : JSVal
  Do2 : JSVal
  logs2 : List P1Log

/-- One iteration of the U-validation loop (source lines 198-242): areas,
velocities, Reynolds and Prandtl numbers, Dittus-Boelter with the 0.4
Prandtl exponent, film and overall coefficients, the relative difference
against the constant assumed U, and the diameter-adjustment heuristic. -/
def uIter (M : MathOps) (c : Ctx) (it : Nat) (di Do : JSVal)
    (logs : List P1Log) : UIterOut :=
  let A_inner_flow := jsDiv (jsMul (.num M.pi) (jsPow M di (jn 2 1))) (jn 4 1)
  let A_annulus_flow := jsDiv (jsMul (.num M.pi) (jsSub (jsPow M Do (jn 2 1)) (jsPow M c.d_o (jn 2 1)))) (jn 4 1)
  let v_inner := jsDiv c.m_h (jsMul A_inner_flow c.rho_h)
  let v_annulus := jsDiv c.m_c (jsMul A_annulus_flow c.rho_c)
  let Re_inner := jsDiv (jsMul (jsMul c.rho_h v_inner) di) c.mu_h
  let Re_annulus := jsDiv (jsMul (jsMul c.rho_c v_annulus) (jsSub Do c.d_o)) c.mu_c
  let Pr_h := jsDiv (jsMul c.Cp_h c.mu_h) c.k_h
  let Pr_c := jsDiv (jsMul c.Cp_c c.mu_c) c.k_c
  let Nu_inner := jsMul (jsMul (jn 23 1000) (jsPow M Re_inner (jn 4 5))) (jsPow M Pr_h (jn 4 10))
  let Nu_annulus := jsMul (jsMul (jn 23 1000) (jsPow M Re_annulus (jn 4 5))) (jsPow M Pr_c (jn 4 10))
  let h_inner := jsDiv (jsMul Nu_inner c.k_h) di
  let h_annulus := jsDiv (jsMul Nu_annulus c.k_c) (jsSub Do c.d_o)
  let U_calculated := jsDiv (jn 1 1)
    (jsAdd (jsAdd (jsAdd (jsDiv (jn 1 1) h_inner) c.Rf_h) c.Rf_c) (jsDiv (jn 1 1) h_annulus))
  let difference := jsDiv (jsAbs (jsSub U_calculated c.U)) c.U
  let logs2 := logs ++ [.uiter it c.U U_calculated difference]
  if jsLe difference (jn 2 10) then
    ⟨h_inner, h_annulus, U_calculated, v_inner, v_annulus, true, di, Do, logs2⟩
  else
    let di2 := if jsLt h_inner h_annulus then
        (if jsLt v_inner (jn 6 10) then jsMul di (jn 9 10)
         else if jsGt v_inner (jn 2 1) then jsMul di (jn 11 10) else di)
      else di
    let Do2 := if jsLt h_inner h_annulus then Do
      else (if jsLt v_annulus (jn 1 2) then jsMul Do (jn 95 100)
         else if jsGt v_annulus (jn 3 2) then jsMul Do (jn 105 100) else Do)
    ⟨h_inner, h_annulus, U_calculated, v_inner, v_annulus, false, di2, Do2, logs2⟩

structure ULoopState where
  d_i : JSVal
  D_o : JSVal
  h_inner : JSVal
  h_annulus : JSVal
  U_calculated : JSVal
  v_inner : JSVal
  v_annulus : JSVal
  U_valid : Bool
  logs : List P1Log

/-- The U-validation while loop, at most 10 iterations; on the final failing
iteration the diameter adjustment still runs before the loop exits. -/
def uLoop (M : MathOps) (c : Ctx) : Nat → Nat → JSVal → JSVal → List P1Log → ULoopState
  | 0, _, di, Do, logs =>
    ⟨di, Do, jn 0 1, jn 0 1, jn 0 1, jn 0 1, jn 0 1, false, logs⟩
  | fuel+1, it, di, Do, logs =>
    let r := uIter M c it di Do logs
    if r.converged then
      ⟨di, Do, r.h_inner, r.h_annulus, r.U_calculated, r.v_inner, r.v_annulus, true, r.logs2⟩
    else
      match fuel with
      | 0 =>
        ⟨r.di2, r.Do2, r.h_inner, r.h_annulus, r.U_calculated, r.v_inner, r.v_annulus, false, r.logs2⟩
      | fuel2+1 => uLoop M c (fuel2+1) (it+1) r.di2 r.Do2 r.logs2

structure DpIterOut where
  v_inner : JSVal
  v_annulus : JSVal
  dP_in : JSVal
  dP_ann : JSVal
  ok : Bool
  di2 : JSVal
  Do2 : JSVal
  logs2 : List P1Log

/-- One iteration of the pressure-drop loop (source lines 249-285), with the
laminar 64/Re branch below Re 2300, Blasius 0.3164/Re^0.25 otherwise, the
null-limit handling, the failure-only log line, and which diameter grows. -/
def dpIter (M : MathOps) (c : Ctx) (it : Nat) (di Do : JSVal)
    (logs : List P1Log) : DpIterOut :=
  let A_inner_flow := jsDiv (jsMul (.num M.pi) (jsPow M di (jn 2 1))) (jn 4 1)
  let A_annulus_flow := jsDiv (jsMul (.num M.pi) (jsSub (jsPow M Do (jn 2 1)) (jsPow M c.d_o (jn 2 1)))) (jn 4 1)
  let v_inner := jsDiv c.m_h (jsMul c.rho_h A_inner_flow)
  let v_annulus := jsDiv c.m_c (jsMul c.rho_c A_annulus_flow)
  let Re_inner := jsDiv (jsMul (jsMul c.rho_h v_inner) di) c.mu_h
  let Re_annulus := jsDiv (jsMul (jsMul c.rho_c v_annulus) (jsSub Do c.d_o)) c.mu_c
  let f_inner := if jsLt Re_inner (jn 2300 1) then jsDiv (jn 64 1) Re_inner
    else jsDiv (jn 3164 10000) (jsPow M Re_inner (jn 1 4))
  let f_ann := if jsLt Re_annulus (jn 2300 1) then jsDiv (jn 64 1) Re_annulus
    else jsDiv (jn 3164 10000) (jsPow M Re_annulus (jn 1 4))
  let deltaP_inner := jsMul (jsMul (jsMul (jsMul f_inner (jsDiv c.L_required di)) (jn 1 2)) c.rho_h) (jsPow M v_inner (jn 2 1))
  let Dh_ann := jsSub Do c.d_o
  let deltaP_ann := jsMul (jsMul (jsMul (jsMul f_ann (jsDiv c.L_required Dh_ann)) (jn 1 2)) c.rho_c) (jsPow M v_annulus (jn 2 1))
  let inner_ok := match c.dp_inner_lim with
    | none => true
    | some lim => jsLe deltaP_inner (.num lim)
  let ann_ok := match c.dp_ann_lim with
    | none => true
    | some lim => jsLe deltaP_ann (.num lim)
  if inner_ok && ann_ok then
    ⟨v_inner, v_annulus, deltaP_inner, deltaP_ann, true, di, Do, logs⟩
  else
    let logs2 := logs ++ [.dpiter it deltaP_inner deltaP_ann]
    if !inner_ok && (jsGt deltaP_inner deltaP_ann || c.dp_ann_lim.isNone) then
      ⟨v_inner, v_annulus, deltaP_inner, deltaP_ann, false, jsMul di (jn 105 100), Do, logs2⟩
    else
      ⟨v_inner, v_annulus, deltaP_inner, deltaP_ann, false, di, jsMul Do (jn 105 100), logs2⟩

structure DpLoopState where
  d_i : JSVal
  D_o : JSVal
  v_inner : JSVal
  v_annulus : JSVal
  dP_in : JSVal
  dP_ann : JSVal
  dp_valid : Bool
  logs : List P1Log

/-- The pressure-drop while loop, at most 5 iterations. -/
def dpLoop (M : MathOps) (c : Ctx) : Nat → Nat → JSVal → JSVal → List P1Log → DpLoopState
  | 0, _, di, Do, logs =>
    ⟨di, Do, jn 0 1, jn 0 1, jn 0 1, jn 0 1, false, logs⟩
  | fuel+1, it, di, Do, logs =>
    let r := dpIter M c it di Do logs
    if r.ok then
      ⟨di, Do, r.v_inner, r.v_annulus, r.dP_in, r.dP_ann, true, r.logs2⟩
    else
      match fuel with
      | 0 => ⟨r.di2, r.Do2, r.v_inner, r.v_annulus, r.dP_in, r.dP_ann, false, r.logs2⟩
      | fuel2+1 => dpLoop M c (fuel2+1) (it+1) r.di2 r.Do2 r.logs2

/-- Pipe selection (source lines 24-47): a standard outer diameter by index,
or the custom one. -/
def pipeSelect (inp : Input) : Except String (String × JSVal) :=
  let pipe_choice := inp.pipe_choice.getD 1
  if pipe_choice = 1 then
    let idx := inp.pipe_size_idx.getD 1
    if idx = 1 then .ok ("19 mm", jn 19 1000)
    else if idx = 2 then .ok ("25 mm", jn 25 1000)
    else if idx = 3 then .ok ("32 mm", jn 32 1000)
    else if idx = 4 then .ok ("38 mm", jn 38 1000)
    else .error ("Invalid pipe size selected")
  else .ok ("User defined", toJS inp.d_o_custom)

/-- Inner diameter selection (source lines 49-65): database lookup by the
outer diameter, the custom value, or the 0.85 ratio fallback. -/
def innerSelect (inp : Input) (d_o : JSVal) : JSVal :=
  let id_choice := inp.id_choice.getD 1
  if id_choice = 1 then
    if jsStrictEq d_o (jn 19 1000) then jn 16 1000
    else if jsStrictEq d_o (jn 25 1000) then jn 21 1000
    else if jsStrictEq d_o (jn 32 1000) then jn 27 1000
    else if jsStrictEq d_o (jn 38 1000) then jn 33 1000
    else match inp.d_i_custom with
      | some v => .num v
      | none => jsMul d_o (jn 85 100)
  else toJS inp.d_i_custom

/-- Energy balance and unknown solving (source lines 89-139), with this
script's error strings; structurally the same logic as in the optimizer. -/
def energyPhase (inp : Input) : Except String (JSVal × JSVal × JSVal × JSVal × JSVal) :=
  let Cp_h := jsMul (toJS inp.Cp_h) (jn 1000 1)
  let Cp_c := jsMul (toJS inp.Cp_c) (jn 1000 1)
  let T_h_in := toJS inp.T_h_in
  let T_c_in := toJS inp.T_c_in
  let tho := inp.T_h_out.getD (frc (-1) 1)
  let tco := inp.T_c_out.getD (frc (-1) 1)
  match inp.m_h, inp.m_c with
  | none, none => .error ("At least one mass flow rate must be provided.")
  | none, some mc =>
    if fracEq tho (frc (-1) 1) || fracEq tco (frc (-1) 1) then
      .error ("To calculate an unknown mass flow rate, ALL inlet and outlet temperatures must be provided.")
    else
      let Q := jsMul (jsMul (.num mc) Cp_c) (jsSub (.num tco) T_c_in)
      let mh := jsDiv Q (jsMul Cp_h (jsSub T_h_in (.num tho)))
      .ok (Q, mh, .num mc, .num tho, .num tco)
  | some mh, none =>
    if fracEq tho (frc (-1) 1) || fracEq tco (frc (-1) 1) then
      .error ("To calculate an unknown mass flow rate, ALL inlet and outlet temperatures must be provided.")
    else
      let Q := jsMul (jsMul (.num mh) Cp_h) (jsSub T_h_in (.num tho))
      let mc := jsDiv Q (jsMul Cp_c (jsSub (.num tco) T_c_in))
      .ok (Q, .num mh, mc, .num tho, .num tco)
  | some mh, some mc =>
    if fracEq tho (frc (-1) 1) then
      let Q := jsMul (jsMul (.num mc) Cp_c) (jsSub (.num tco) T_c_in)
      let thoV := jsSub T_h_in (jsDiv Q (jsMul (.num mh) Cp_h))
      .ok (Q, .num mh, .num mc, thoV, .num tco)
    else if fracEq tco (frc (-1) 1) then
      let Q := jsMul (jsMul (.num mh) Cp_h) (jsSub T_h_in (.num tho))
      let tcoV := jsAdd T_c_in (jsDiv Q (jsMul (.num mc) Cp_c))
      .ok (Q, .num mh, .num mc, .num tho, tcoV)
    else
      let Qh := jsMul (jsMul (.num mh) Cp_h) (jsSub T_h_in (.num tho))
      let Qc := jsMul (jsMul (.num mc) Cp_c) (jsSub (.num tco) T_c_in)
      if jsGt (jsAbs (jsSub Qh Qc)) (jsMul (jn 5 100) Qh) then
        .error ("Energy balance not satisfied (>5% difference). Check input temperatures or flow rates.")
      else .ok (Qh, .num mh, .num mc, .num tho, .num tco)

/-- The body of this calculateDPHX for a non-null input object. -/
def calcBody (M : MathOps) (inp : Input) : Result :=
  match pipeSelect inp with
  | .error e => .error e
  | .ok (pipe_name, d_o) =>
    let d_i0 := innerSelect inp d_o
    let D_o0 := toJS inp.D_o
    let foul_choice := inp.foul_choice.getD 2
    let Rf_h : JSVal := if foul_choice = 1 then toJS inp.Rf_h
      else if foul_choice = 2 then jn 2 10000 else jn 0 1
    let Rf_c : JSVal := if foul_choice = 1 then toJS inp.Rf_c
      else if foul_choice = 2 then jn 2 10000 else jn 0 1
    match energyPhase inp with
    | .error e => .error e
    | .ok (Q, m_h, m_c, T_h_out, T_c_out) =>
      let T_h_in := toJS inp.T_h_in
      let T_c_in := toJS inp.T_c_in
      let flow_type := inp.flow_type.getD 1
      if flow_type = 1 && (jsLe T_h_in T_c_out || jsLe T_h_out T_c_in) then
        .error ("Temperature cross detected in counter-current flow.")
      else if flow_type = 2 && (jsLe T_h_in T_c_in || jsLe T_h_out T_c_out) then
        .error ("Temperature cross detected in co-current flow.")
      else if flow_type != 1 && flow_type != 2 then
        .error ("Invalid flow type selected.")
      else
        let deltaT1 := if flow_type = 1 then jsSub T_h_in T_c_out else jsSub T_h_in T_c_in
        let deltaT2 := if flow_type = 1 then jsSub T_h_out T_c_in else jsSub T_h_out T_c_out
        match lmtdBlock M deltaT1 deltaT2 with
        | .error e => .error e
        | .ok LMTD =>
          let U_assumed := toJS inp.U_assumed
          let A_required := jsDiv Q (jsMul U_assumed LMTD)
          if jsGe d_i0 d_o then
            .error ("Inner diameter cannot be greater than or equal to outer diameter.")
          else
            let L_required := jsDiv A_required (jsMul (.num M.pi) d_o)
            let c : Ctx := ⟨m_h, toJS inp.rho_h, toJS inp.mu_h, jsMul (toJS inp.Cp_h) (jn 1000 1), toJS inp.k_h,
              m_c, toJS inp.rho_c, toJS inp.mu_c, jsMul (toJS inp.Cp_c) (jn 1000 1), toJS inp.k_c,
              Rf_h, Rf_c, U_assumed, d_o, L_required,
              inp.allowable_dp_inner, inp.allowable_dp_ann⟩
            let u := uLoop M c 10 1 d_i0 D_o0 []
            let p := dpLoop M c 5 1 u.d_i u.D_o u.logs
            .success ⟨T_h_out, T_c_out, Q, LMTD, A_required, pipe_name, d_o,
              p.d_i, p.D_o, L_required, p.v_inner, p.v_annulus,
              u.h_inner, u.h_annulus, u.U_calculated, U_assumed,
              p.dP_in, p.dP_ann, m_h, m_c, p.logs, u.U_valid, p.dp_valid⟩

/-- The try-block: a null data object throws on the first property read. -/
def bodyDPHX (M : MathOps) (dat : Option Input) : Except JSErr Result :=
  match dat with
  | none => .error (.typeError ("TypeError: Cannot read properties of null"))
  | some d => .ok (calcBody M d)

/-- The exported calculateDPHX of this variant: body wrapped in try/catch. -/
def calculateDPHX (M : MathOps) (dat : Option Input) : Except JSErr Result :=
  match bodyDPHX M dat with
  | .error e => .ok (.error (e.message))
  | .ok r => .ok r

end Dphx2

namespace Sthx1

/- Model of the first calculateSTHX (projects/sthx/script.js lines 22-199):
a single-pass rating calculation wrapped in try/catch. -/

/-- Parsed form input; a missing field is none; fluid_allocation is true for
the hot_shell choice (the || default makes an absent field hot_shell). -/
structure Input where
  m_h : Option Frac
  T_h_in : Option Frac
  T_h_out : Option Frac
  m_c : Option Frac
  T_c_in : Option Frac
  T_c_out : Option Frac
  Cp_h : Option Frac
  rho_h : Option Frac
  mu_h : Option Frac
  k_h : Option Frac
  Rf_h : Option Frac
  Cp_c : Option Frac
  rho_c : Option Frac
  mu_c : Option Frac
  k_c : Option Frac
  Rf_c : Option Frac
  shell_ID : Option Frac
  tube_length : Option Frac
  tube_od : Option Frac
  tube_id : Option Frac
  tube_pitch : Option Frac
  pitch_square : Bool
  baffles_n : Option Frac
  baffle_spacing : Option Frac
  tube_passes : Option Frac
  total_tubes : Option Frac
  fluid_allocation : Option Bool

/-- The success result object (source lines 177-194). -/
structure Output where
  hot_shell : Bool
  Q : JSVal
  LMTD : JSVal
  U_design : JSVal
  U_clean : JSVal
  A_prov : JSVal
  A_req : JSVal
  overdesign : JSVal
  m_h : JSVal
  m_c : JSVal
  h_t : JSVal
  Re_t : JSVal
  v_t : JSVal
  dP_t : JSVal
  h_s : JSVal
  Re_s : JSVal
  v_s : JSVal
  dP_s : JSVal
  T_h_out : JSVal
  T_c_out : JSVal

inductive Result where
  | error (msg : String)
  | success (out : Output)

/-- Energy balance (source lines 57-80): like the optimizer but the
both-known case takes the hot-side duty with no mismatch check. -/
def energyPhase (d : Input) : Except String (JSVal × JSVal × JSVal × JSVal × JSVal) :=
  let Cp_h := jsMul (toJS d.Cp_h) (jn 1000 1)
  let Cp_c := jsMul (toJS d.Cp_c) (jn 1000 1)
  let T_h_in := toJS d.T_h_in
  let T_c_in := toJS d.T_c_in
  let tho := d.T_h_out.getD (frc (-1) 1)
  let tco := d.T_c_out.getD (frc (-1) 1)
  match d.m_h, d.m_c with
  | none, none => .error ("Provide at least one Mass Flow Rate.")
  | none, some mc =>
    if fracEq tho (frc (-1) 1) || fracEq tco (frc (-1) 1) then
      .error ("To find Mass Flow, ALL temps must be known.")
    else
      let Q := jsMul (jsMul (.num mc) Cp_c) (jsSub (.num tco) T_c_in)
      let mh := jsDiv Q (jsMul Cp_h (jsSub T_h_in (.num tho)))
      .ok (Q, mh, .num mc, .num tho, .num tco)
  | some mh, none =>
    if fracEq tho (frc (-1) 1) || fracEq tco (frc (-1) 1) then
      .error ("To find Mass Flow, ALL temps must be known.")
    else
      let Q := jsMul (jsMul (.num mh) Cp_h) (jsSub T_h_in (.num tho))
      let mc := jsDiv Q (jsMul Cp_c (jsSub (.num tco) T_c_in))
      .ok (Q, .num mh, mc, .num tho, .num tco)
  | some mh, some mc =>
    if fracEq tho (frc (-1) 1) then
      let Q := jsMul (jsMul (.num mc) Cp_c) (jsSub (.num tco) T_c_in)
      let thoV := jsSub T_h_in (jsDiv Q (jsMul (.num mh) Cp_h))
      .ok (Q, .num mh, .num mc, thoV, .num tco)
    else if fracEq tco (frc (-1) 1) then
      let Q := jsMul (jsMul (.num mh) Cp_h) (jsSub T_h_in (.num tho))
      let tcoV := jsAdd T_c_in (jsDiv Q (jsMul (.num mc) Cp_c))
      .ok (Q, .num mh, .num mc, .num tho, tcoV)
    else
      let Q := jsMul (jsMul (.num mh) Cp_h) (jsSub T_h_in (.num tho))
      .ok (Q, .num mh, .num mc, .num tho, .num tco)

/-- The body of the first calculateSTHX for a non-null data object: energy
balance, the unguarded counter-current LMTD times Ft = 0.9, allocation,
tube-side and Kern shell-side rating, overall coefficients and areas. -/
def calcBody (M : MathOps) (d : Input) : Result :=
  match energyPhase d with
  | .error e => .error e
  | .ok (Q, m_h, m_c, T_h_out, T_c_out) =>
    let T_h_in := toJS d.T_h_in
    let T_c_in := toJS d.T_c_in
    let dt1 := jsSub T_h_in T_c_out
    let dt2 := jsSub T_h_out T_c_in
    if jsLe dt1 (jn 0 1) || jsLe dt2 (jn 0 1) then
      .error ("Temperature Cross or Invalid Temps.")
    else
      let LMTD_counter := jsDiv (jsSub dt1 dt2) (jsLog M (jsDiv dt1 dt2))
      let LMTD := jsMul LMTD_counter (jn 9 10)
      let hot_shell := d.fluid_allocation.getD true
      let Rf_h := JSVal.num (d.Rf_h.getD (frc 2 10000))
      let Rf_c := JSVal.num (d.Rf_c.getD (frc 2 10000))
      let Cp_h := jsMul (toJS d.Cp_h) (jn 1000 1)
      let Cp_c := jsMul (toJS d.Cp_c) (jn 1000 1)
      let ms := if hot_shell then m_h else m_c
      let rhos := if hot_shell then toJS d.rho_h else toJS d.rho_c
      let mus := if hot_shell then toJS d.mu_h else toJS d.mu_c
      let ks := if hot_shell then toJS d.k_h else toJS d.k_c
      let Cps := if hot_shell then Cp_h else Cp_c
      let Rfs := if hot_shell then Rf_h else Rf_c
      let mt := if hot_shell then m_c else m_h
      let rhot := if hot_shell then toJS d.rho_c else toJS d.rho_h
      let mut_ := if hot_shell then toJS d.mu_c else toJS d.mu_h
      let kt := if hot_shell then toJS d.k_c else toJS d.k_h
      let Cpt := if hot_shell then Cp_c else Cp_h
      let Rft := if hot_shell then Rf_c else Rf_h
      let tube_id := toJS d.tube_id
      let tube_od := toJS d.tube_od
      let tube_length := toJS d.tube_length
      let tube_pitch := toJS d.tube_pitch
      let shell_ID := toJS d.shell_ID
      let Nt := toJS d.total_tubes
      let Np := JSVal.num (d.tube_passes.getD (frc 1 1))
      let flow_area_tube := jsMul (jsDiv (jsMul (jsMul (.num M.pi) tube_id) tube_id) (jn 4 1)) (jsDiv Nt Np)
      let velocity_tube := jsDiv mt (jsMul rhot flow_area_tube)
      let Re_t := jsDiv (jsMul (jsMul rhot velocity_tube) tube_id) mut_
      let Pr_t := jsDiv (jsMul Cpt mut_) kt
      let Nu_t := jsMul (jsMul (jn 23 1000) (jsPow M Re_t (jn 4 5))) (jsPow M Pr_t (jn 33 100))
      let h_t := jsDiv (jsMul Nu_t kt) tube_id
      let f_t := jsMul (jn 316 1000) (jsPow M Re_t (jn (-1) 4))
      let dP_tube_friction := jsMul (jsDiv (jsMul (jsMul (jn 4 1) f_t) (jsMul tube_length Np)) tube_id)
        (jsMul (jsMul (jsMul (jn 1 2) rhot) velocity_tube) velocity_tube)
      let dP_tube_returns := jsMul (jsMul (jn 4 1) Np)
        (jsMul (jsMul (jsMul (jn 1 2) rhot) velocity_tube) velocity_tube)
      let dP_t := jsAdd dP_tube_friction dP_tube_returns
      let clearance := jsSub tube_pitch tube_od
      let As := jsDiv (jsMul (jsMul shell_ID clearance) (toJS d.baffle_spacing)) tube_pitch
      let Gs := jsDiv ms As
      let De :=
        if d.pitch_square then
          jsDiv (jsMul (jn 4 1) (jsSub (jsPow M tube_pitch (jn 2 1))
            (jsDiv (jsMul (.num M.pi) (jsPow M tube_od (jn 2 1))) (jn 4 1))))
            (jsMul (.num M.pi) tube_od)
        else
          jsDiv (jsMul (jn 4 1) (jsSub (jsMul (jsMul (jsMul (jn 1 2) tube_pitch) (jn 866 1000)) tube_pitch)
            (jsDiv (jsMul (jsMul (jn 1 2) (.num M.pi)) (jsPow M tube_od (jn 2 1))) (jn 4 1))))
            (jsMul (jsMul (jn 1 2) (.num M.pi)) tube_od)
      let Re_s := jsDiv (jsMul Gs De) mus
      let Pr_s := jsDiv (jsMul Cps mus) ks
      let Nu_s := jsMul (jsMul (jn 36 100) (jsPow M Re_s (jn 55 100))) (jsPow M Pr_s (jn 33 100))
      let h_s := jsDiv (jsMul Nu_s ks) De
      let f_s := jsExp M (jsSub (jn 576 1000) (jsMul (jn 19 100) (jsLog M Re_s)))
      let Nb := jsAdd (toJS d.baffles_n) (jn 1 1)
      let dP_s := jsDiv (jsMul (jsMul (jsMul f_s (jsPow M Gs (jn 2 1))) shell_ID) Nb)
        (jsMul (jsMul (jn 2 1) rhos) De)
      let term_shell := jsAdd (jsDiv (jn 1 1) h_s) Rfs
      let term_tube := jsMul (jsDiv tube_od tube_id) (jsAdd (jsDiv (jn 1 1) h_t) Rft)
      let U_clean := jsDiv (jn 1 1) (jsAdd (jsDiv (jn 1 1) h_s) (jsMul (jsDiv tube_od tube_id) (jsDiv (jn 1 1) h_t)))
      let U_design := jsDiv (jn 1 1) (jsAdd term_shell term_tube)
      let A_prov := jsMul (jsMul (jsMul (.num M.pi) tube_od) tube_length) Nt
      let A_req := jsDiv Q (jsMul U_design LMTD)
      let overdesign := jsMul (jsDiv (jsSub A_prov A_req) A_req) (jn 100 1)
      .success ⟨hot_shell, Q, LMTD, U_design, U_clean, A_prov, A_req, overdesign,
        m_h, m_c, h_t, Re_t, velocity_tube, dP_t, h_s, Re_s, jsDiv Gs rhos, dP_s,
        T_h_out, T_c_out⟩

/-- The try-block: a null data object throws on the first property read. -/
def bodySTHX (M : MathOps) (dat : Option Input) : Except JSErr Result :=
  match dat with
  | none => .error (.typeError ("TypeError: Cannot read properties of null"))
  | some d => .ok (calcBody M d)

/-- The exported first calculateSTHX: body wrapped in try/catch. -/
def calculateSTHX (M : MathOps) (dat : Option Input) : Except JSErr Result :=
  match bodySTHX M dat with
  | .error e => .ok (.error (e.message))
  | .ok r => .ok r

end Sthx1

namespace Sthx2

/-- The input object of the second calculateSTHX (exposed as
calculateSTHX_Pro): the hot and cold fluid records may be absent entirely
(undefined), which is what makes property reads throw. -/
structure STHXInput where
  hot : Option FluidT
  cold : Option FluidT
  mode_design : Bool
  allocation_auto : Bool
  allocation_hot_shell : Option Bool
  U_guess : Option Frac
  shell_ID : Option Frac
  total_tubes : Option Frac
  tube_od : Option Frac
  tube_id : Option Frac
  tube_length : Option Frac
  tube_pitch : Option Frac
  tube_passes : Option Frac
  pitch_square : Bool
  baffle_spacing : Option Frac
  baffles_n : Option Frac
  Rf_t : Option Frac
  Rf_s : Option Frac

inductive STHXv2Result where
  | designRes (r : DesignResult)
  | ratingRes (r : KernRating)

def emptyFluid : FluidT := ⟨none, none, none, none, none, none, none, none, none⟩

def undefMsg : String := "TypeError: Cannot read properties of undefined"

/-- The second calculateSTHX has NO try/catch: this model returns
Except.error exactly where a property read of an undefined fluid object
would throw and escape the function.  Evaluation order follows the source:
the auto-allocation heuristic reads D.hot.mu first; design mode reads
ShellFluid.m in calculateDuty, then D.hot.Tin and D.cold.Tout in
calculateLMTD (after the duty falsy check), then TubeFluid.m in the first
rating; rating mode reads TubeFluid.m before ShellFluid.m. -/
def calculateSTHX_Pro (M : MathOps) (inp : STHXInput) : Except JSErr STHXv2Result :=
  let allocStep : Except JSErr (Option Bool) :=
    if inp.allocation_auto then
      match inp.hot, inp.cold with
      | none, _ => .error (.typeError undefMsg)
      | _, none => .error (.typeError undefMsg)
      | some h, some c =>
        let h_visc := jsGt (toJS h.mu) (jn 1 10)
        let c_visc := jsGt (toJS c.mu) (jn 1 10)
        let h_pres := jsGt (toJS h.P) (jn 20 1)
        let c_pres := jsGt (toJS c.P) (jn 20 1)
        .ok (some (
          if h_visc && !c_visc then true
          else if c_visc && !h_visc then false
          else if h_pres && !c_pres then false
          else if c_pres && !h_pres then true
          else if jsGt (toJS h.fouling) (jsMul (toJS c.fouling) (jn 5 1)) then false
          else true))
    else .ok inp.allocation_hot_shell
  match allocStep with
  | .error e => .error e
  | .ok alloc =>
    let hot_shell := alloc.getD false
    let shellO := if hot_shell then inp.hot else inp.cold
    let tubeO := if hot_shell then inp.cold else inp.hot
    if inp.mode_design then
      match shellO with
      | none => .error (.typeError undefMsg)
      | some s =>
        let hotChain := truthy s.m && truthy s.Tin && truthy s.Tout
        if !hotChain && tubeO.isNone then .error (.typeError undefMsg)
        else
          let Q := calculateDuty s (tubeO.getD emptyFluid)
          if jsFalsy Q then
            .ok (.designRes (.error ("Insufficient thermal data to calc Duty (Q).")))
          else
            match inp.hot with
            | none => .error (.typeError undefMsg)
            | some h =>
              match inp.cold with
              | none => .error (.typeError undefMsg)
              | some c =>
                match tubeO with
                | none => .error (.typeError undefMsg)
                | some t =>
                  .ok (.designRes (runDesignIteration M s t
                    ⟨inp.U_guess, toJS inp.shell_ID, toJS inp.total_tubes,
                      toJS inp.tube_od, toJS inp.tube_id,
                      JSVal.num (inp.tube_length.getD (frc 3 1)),
                      toJS inp.tube_pitch,
                      JSVal.num (inp.tube_passes.getD (frc 2 1)),
                      inp.pitch_square, toJS inp.baffle_spacing,
                      toJS inp.baffles_n, toJS inp.Rf_t, toJS inp.Rf_s, h, c⟩))
    else
      match tubeO with
      | none => .error (.typeError undefMsg)
      | some t =>
        match shellO with
        | none => .error (.typeError undefMsg)
        | some s =>
          .ok (.ratingRes (performKernRating M s t
            ⟨toJS inp.shell_ID, toJS inp.tube_od, toJS inp.tube_id,
              JSVal.num (inp.tube_length.getD (frc 3 1)),
              toJS inp.total_tubes,
              JSVal.num (inp.tube_passes.getD (frc 2 1)),
              toJS inp.tube_pitch, inp.pitch_square,
              toJS inp.baffle_spacing, toJS inp.baffles_n,
              toJS inp.Rf_t, toJS inp.Rf_s⟩))

end Sthx2

/-- Positive-infinity test. -/
def jsIsPosInf : JSVal → Bool
  | .inf true => true
  | _ => false

/- Concrete instances.  Mtriv instantiates the abstracted transcendental
primitives with constant functions (value one) and a rational pi; any
instantiation is legitimate for exercising the control flow, since all the
value-determined special cases are computed exactly by jsPow, jsLog, jsExp
and jsSqrt themselves. -/

def Mtriv : MathOps :=
  ⟨fun _ _ => frc 1 1, fun _ => frc 1 1, fun _ => frc 1 1, fun _ => frc 1 1, frc 157 50⟩

/-- Shell-side stream: water-like, 1 kg/s cooling 350 to 300. -/
def S0 : Sthx2.FluidT :=
  ⟨some (frc 1 1), some (frc 1000 1), some (frc 1 1000), some (frc 1000 1),
    some (frc 3 5), some (frc 350 1), some (frc 300 1), none, none⟩

/-- Tube-side stream with ZERO mass flow, heated 290 to 310. -/
def T0 : Sthx2.FluidT :=
  ⟨some (frc 0 1), some (frc 1000 1), some (frc 1 1000), some (frc 1000 1),
    some (frc 3 5), some (frc 290 1), some (frc 310 1), none, none⟩

/-- Design parameters: defaulted U guess, 19 mm tubes, 3 m long, 25 mm
triangular pitch, two passes; the zero-flow tube stream makes the calculated
clean coefficient zero at every iteration, so the loop never converges. -/
def D0 : Sthx2.DesignParams :=
  ⟨none, .nan, .nan, jn 19 1000, jn 16 1000, jn 3 1, jn 25 1000, jn 2 1,
    false, .nan, .nan, .nan, .nan, S0, T0⟩

/-- Shell-side stream with its outlet temperature missing. -/
def S1 : Sthx2.FluidT :=
  ⟨some (frc 1 1), some (frc 1000 1), some (frc 1 1000), some (frc 1000 1),
    some (frc 3 5), some (frc 350 1), none, none, none⟩

/-- Tube-side stream with its outlet temperature missing. -/
def T1 : Sthx2.FluidT :=
  ⟨some (frc 1 1), some (frc 1000 1), some (frc 1 1000), some (frc 1000 1),
    some (frc 3 5), some (frc 290 1), none, none, none⟩

/-- Design parameters for the streams with unknown outlets: the duty cannot
be computed from either stream. -/
def D1 : Sthx2.DesignParams :=
  ⟨none, .nan, .nan, jn 19 1000, jn 16 1000, jn 3 1, jn 25 1000, jn 2 1,
    false, .nan, .nan, .nan, .nan, S1, T1⟩

/-- A fully specified rating geometry (0.5 m shell, 100 of the 19 mm tubes,
two passes, triangular 25 mm pitch). -/
def G2 : Sthx2.KernGeom :=
  ⟨jn 5 10, jn 19 1000, jn 16 1000, jn 3 1, jn 100 1, jn 2 1, jn 25 1000,
    false, .nan, .nan, .nan, .nan⟩

/-- A balanced optimizer input: 1 kg/s on both sides, hot 100 to 50, cold 20
to 70, unit conductivities, default fouling and pressure-drop limit. -/
def inpW : Dphx.DPHXInput :=
  { m_h := some (frc 1 1), T_h_in := some (frc 100 1), T_h_out := some (frc 50 1)
    m_c := some (frc 1 1), T_c_in := some (frc 20 1), T_c_out := some (frc 70 1)
    Cp_h := some (frc 1 1000), rho_h := some (frc 1000 1), mu_h := some (frc 1 1000)
    k_h := some (frc 1 1)
    Cp_c := some (frc 1 1000), rho_c := some (frc 1000 1), mu_c := some (frc 1 1000)
    k_c := some (frc 1 1)
    flow_type := some 1, Rf_h := none, Rf_c := none, allowable_dp_inner := none }

/-- The same input with an unattainable 1 Pa pressure-drop limit. -/
def inpX : Dphx.DPHXInput := { inpW with allowable_dp_inner := some (frc 1 1) }

/-- An optimizer input with both mass flows missing. -/
def inpNoFlows : Dphx.DPHXInput := { inpW with m_h := none, m_c := none }

/-- An optimizer input with the hot flow missing and an outlet missing. -/
def inpOneFlow : Dphx.DPHXInput := { inpW with m_h := none, T_c_out := none }

/-- The search environment of the balanced input (duty 50 W after the kJ
conversion, equal differences so the LMTD is exactly 30). -/
def envW : Dphx.SearchEnv :=
  { Q := jn 50 1, LMTD := jn 30 1, m_h := jn 1 1, m_c := jn 1 1
    T_h_out := jn 50 1, T_c_out := jn 70 1
    Cp_h := jn 1 1, rho_h := jn 1000 1, mu_h := jn 1 1000, k_h := jn 1 1
    Cp_c := jn 1 1, rho_c := jn 1000 1, mu_c := jn 1 1000, k_c := jn 1 1
    foul_h := jn 2 10000, foul_c := jn 2 10000, max_dp := jn 70000 1 }

def dummyCand : Dphx.Candidate :=
  ⟨0, 0, jn 0 1, jn 0 1, jn 0 1, jn 0 1, jn 0 1, jn 0 1, jn 0 1, jn 0 1,
    jn 0 1, jn 0 1, jn 0 1⟩

/-- The best candidate of the balanced search (exists; see the witness). -/
def bW : Dphx.Candidate :=
  (Dphx.resultBest (Dphx.searchPhase Mtriv envW)).getD dummyCand

def dummyRating : Sthx2.KernRating :=
  ⟨jn 0 1, jn 0 1, jn 0 1, jn 0 1, jn 0 1, jn 0 1, jn 0 1, jn 0 1, jn 0 1,
    jn 0 1, jn 0 1, jn 0 1, jn 0 1, jn 0 1, jn 0 1, ⟨jn 0 1, jn 0 1, jn 0 1, jn 0 1, jn 0 1⟩⟩

/-- The rating and logs of the non-converging design run. -/
def rW : Sthx2.KernRating :=
  (Sthx2.resRating (Sthx2.runDesignIteration Mtriv S0 T0 D0)).getD dummyRating
def lW : List Sthx2.DesignLog :=
  Sthx2.resLogs (Sthx2.runDesignIteration Mtriv S0 T0 D0)

/-- Fluids realizing equal temperature differences: hot 80 to 60, cold 20 to
40, so both differences are exactly 40. -/
def hotEx : Sthx2.FluidT :=
  ⟨none, none, none, none, none, some (frc 80 1), some (frc 60 1), none, none⟩
def coldEx : Sthx2.FluidT :=
  ⟨none, none, none, none, none, some (frc 20 1), some (frc 40 1), none, none⟩

/-- A rating-mode call of the second calculateSTHX with the zero-flow tube
stream (hot on the shell side). -/
def ratingInp : Sthx2.STHXInput :=
  { hot := some S0, cold := some T0, mode_design := false
    allocation_auto := false, allocation_hot_shell := some true
    U_guess := none, shell_ID := some (frc 5 10), total_tubes := some (frc 100 1)
    tube_od := some (frc 19 1000), tube_id := some (frc 16 1000)
    tube_length := some (frc 3 1), tube_pitch := some (frc 25 1000)
    tube_passes := some (frc 2 1), pitch_square := false
    baffle_spacing := none, baffles_n := none, Rf_t := none, Rf_s := none }

/-- A maximally malformed call of the second calculateSTHX: no fluid objects
at all (as for calculateSTHX_Pro(null) or an empty object). -/
def emptyV2 : Sthx2.STHXInput :=
  { hot := none, cold := none, mode_design := false
    allocation_auto := false, allocation_hot_shell := none
    U_guess := none, shell_ID := none, total_tubes := none
    tube_od := none, tube_id := none, tube_length := none, tube_pitch := none
    tube_passes := none, pitch_square := false
    baffle_spacing := none, baffles_n := none, Rf_t := none, Rf_s := none }

/- A small toolkit about signs of modelled values, used to trace the
zero-flow rating path symbolically (independent of the abstracted
transcendental primitives). -/

def posNum (v : JSVal) : Prop := ∃ a, v = .num a ∧ 0 < a.n

def zeroNum (v : JSVal) : Prop := ∃ a, v = .num a ∧ a.n = 0

def isNum (v : JSVal) : Prop := ∃ a, v = .num a

/-- The fixed point of the zero-duty design trial (used to exhibit a
converging stop step concretely). -/
def UW : JSVal := (Sthx2.designTrial Mtriv S0 S0 D0 (jn 0 1) (jn 1 1) (jn 500 1)).rating.U_clean

def envX : Dphx.SearchEnv := { envW with max_dp := jn 1 1 }

/- ------------------------------------------------------------------ -/
/- Theorems.                                                           -/
/- ------------------------------------------------------------------ -/

/- Order lemmas for the semantic comparison predicates. -/

theorem fracLt_irrefl (a : Frac) : fracLt a a = false := by
  simp [fracLt]

theorem fracLt_asymm {a b : Frac} (h : fracLt a b = true) : fracLt b a = false := by
  simp only [fracLt, decide_eq_true_eq] at h
  simp only [fracLt, decide_eq_false_iff_not]
  omega

theorem fracLt_trans {a b c : Frac} (h1 : fracLt a b = true)
    (h2 : fracLt b c = true) : fracLt a c = true := by
  simp only [fracLt, decide_eq_true_eq] at *
  have ha : (0 : Int) < (a.d : Int) := Int.ofNat_pos.mpr a.pos
  have hb : (0 : Int) < (b.d : Int) := Int.ofNat_pos.mpr b.pos
  have hc : (0 : Int) < (c.d : Int) := Int.ofNat_pos.mpr c.pos
  have h3 := mul_lt_mul_of_pos_right h1 hc
  have h4 := mul_lt_mul_of_pos_right h2 ha
  have h5 : a.n * ↑c.d * ↑b.d < c.n * ↑a.d * ↑b.d := by nlinarith
  exact lt_of_mul_lt_mul_right h5 hb.le

theorem fracEq_refl (a : Frac) : fracEq a a = true := by
  simp [fracEq]

theorem fracEq_symm {a b : Frac} (h : fracEq a b = true) : fracEq b a = true := by
  simp only [fracEq, decide_eq_true_eq] at *
  omega

theorem fracEq_lt_left {a b : Frac} (h : fracEq a b = true) (x : Frac) :
    fracLt a x = fracLt b x := by
  simp only [fracEq, decide_eq_true_eq] at h
  have ha : (0 : Int) < (a.d : Int) := Int.ofNat_pos.mpr a.pos
  have hb : (0 : Int) < (b.d : Int) := Int.ofNat_pos.mpr b.pos
  simp only [fracLt]
  rw [decide_eq_decide]
  constructor
  · intro hlt
    have h3 := mul_lt_mul_of_pos_right hlt hb
    have h5 : b.n * ↑x.d * ↑a.d < x.n * ↑b.d * ↑a.d := by nlinarith
    exact lt_of_mul_lt_mul_right h5 ha.le
  · intro hlt
    have h3 := mul_lt_mul_of_pos_right hlt ha
    have h5 : a.n * ↑x.d * ↑b.d < x.n * ↑a.d * ↑b.d := by nlinarith
    exact lt_of_mul_lt_mul_right h5 hb.le

theorem fracEq_lt_right {a b : Frac} (h : fracEq a b = true) (x : Frac) :
    fracLt x a = fracLt x b := by
  simp only [fracEq, decide_eq_true_eq] at h
  have ha : (0 : Int) < (a.d : Int) := Int.ofNat_pos.mpr a.pos
  have hb : (0 : Int) < (b.d : Int) := Int.ofNat_pos.mpr b.pos
  simp only [fracLt]
  rw [decide_eq_decide]
  constructor
  · intro hlt
    have h3 := mul_lt_mul_of_pos_right hlt hb
    have h5 : x.n * ↑b.d * ↑a.d < b.n * ↑x.d * ↑a.d := by nlinarith
    exact lt_of_mul_lt_mul_right h5 ha.le
  · intro hlt
    have h3 := mul_lt_mul_of_pos_right hlt ha
    have h5 : x.n * ↑a.d * ↑b.d < a.n * ↑x.d * ↑b.d := by nlinarith
    exact lt_of_mul_lt_mul_right h5 hb.le

theorem jsLt_irrefl (a : JSVal) : jsLt a a = false := by
  cases a with
  | nan => rfl
  | inf s => cases s <;> rfl
  | num q => simpa [jsLt] using fracLt_irrefl q

theorem jsLt_asymm {a b : JSVal} (h : jsLt a b = true) : jsLt b a = false := by
  cases a with
  | nan => exact absurd h (by simp [jsLt])
  | inf s =>
    cases b with
    | nan => exact absurd h (by simp [jsLt])
    | inf t =>
      have hs : s = false ∧ t = true := by simpa [jsLt] using h
      simp [jsLt, hs.1, hs.2]
    | num q =>
      have hs : s = false := by simpa [jsLt] using h
      simp [jsLt, hs]
  | num p =>
    cases b with
    | nan => exact absurd h (by simp [jsLt])
    | inf t =>
      have ht : t = true := by simpa [jsLt] using h
      simp [jsLt, ht]
    | num q =>
      have hq := fracLt_asymm (a := p) (b := q) (by simpa [jsLt] using h)
      simpa [jsLt] using hq

theorem jsLt_trans {a b c : JSVal} (h1 : jsLt a b = true)
    (h2 : jsLt b c = true) : jsLt a c = true := by
  cases a <;> cases b <;> cases c <;> simp_all [jsLt]
  case num.num.num p q r => exact fracLt_trans h1 h2

theorem jsSame_refl (a : JSVal) : jsSame a a = true := by
  cases a with
  | nan => rfl
  | inf s => simp [jsSame]
  | num q => simpa [jsSame] using fracEq_refl q

theorem jsSame_symm {a b : JSVal} (h : jsSame a b = true) : jsSame b a = true := by
  cases a <;> cases b <;> simp_all [jsSame]
  case num.num p q => exact fracEq_symm h

theorem jsSame_lt_left {a b : JSVal} (h : jsSame a b = true) (x : JSVal) :
    jsLt a x = jsLt b x := by
  cases a with
  | nan =>
    cases b with
    | nan => rfl
    | inf t => exact absurd h (by simp [jsSame])
    | num q => exact absurd h (by simp [jsSame])
  | inf s =>
    cases b with
    | nan => exact absurd h (by simp [jsSame])
    | inf t =>
      have hst : s = t := by simpa [jsSame] using h
      rw [hst]
    | num q => exact absurd h (by simp [jsSame])
  | num p =>
    cases b with
    | nan => exact absurd h (by simp [jsSame])
    | inf t => exact absurd h (by simp [jsSame])
    | num q =>
      have hpq : fracEq p q = true := by simpa [jsSame] using h
      cases x with
      | nan => rfl
      | inf t => rfl
      | num r => simpa [jsLt] using fracEq_lt_left hpq r

theorem jsSame_lt_right {a b : JSVal} (h : jsSame a b = true) (x : JSVal) :
    jsLt x a = jsLt x b := by
  cases a with
  | nan =>
    cases b with
    | nan => rfl
    | inf t => exact absurd h (by simp [jsSame])
    | num q => exact absurd h (by simp [jsSame])
  | inf s =>
    cases b with
    | nan => exact absurd h (by simp [jsSame])
    | inf t =>
      have hst : s = t := by simpa [jsSame] using h
      rw [hst]
    | num q => exact absurd h (by simp [jsSame])
  | num p =>
    cases b with
    | nan => exact absurd h (by simp [jsSame])
    | inf t => exact absurd h (by simp [jsSame])
    | num q =>
      have hpq : fracEq p q = true := by simpa [jsSame] using h
      cases x with
      | nan => rfl
      | inf t => rfl
      | num r => simpa [jsLt] using fracEq_lt_right hpq r

section SelFold

variable {α : Type} (feas : α → Bool) (key : α → JSVal)

theorem selFold_nil (st : Option α × JSVal) : selFold feas key [] st = st := rfl

theorem selFold_cons (c : α) (t : List α) (st : Option α × JSVal) :
    selFold feas key (c :: t) st = selFold feas key t (selStep feas key st c) := rfl

theorem selFold_all_infeasible : ∀ (l : List α) (st : Option α × JSVal),
    (∀ p ∈ l, feas p = false) → selFold feas key l st = st := by
  intro l
  induction l with
  | nil => intro st _; rfl
  | cons c t ih =>
    intro st h
    rw [selFold_cons]
    have hc : feas c = false := h c (List.mem_cons_self c t)
    have : selStep feas key st c = st := by simp [selStep, hc]
    rw [this]
    exact ih st (fun p hp => h p (List.mem_cons_of_mem c hp))

theorem selFold_spec : ∀ (l : List α) (b : Option α) (m : JSVal),
    (∀ p ∈ l, feas p = true → jsLt (key p) (selFold feas key l (b, m)).2 = false)
    ∧ ((selFold feas key l (b, m)).2 = m ∨ jsLt (selFold feas key l (b, m)).2 m = true)
    ∧ (selFold feas key l (b, m) = (b, m)
       ∨ ∃ c l₁ l₂, l = l₁ ++ c :: l₂
          ∧ selFold feas key l (b, m) = (some c, key c)
          ∧ feas c = true ∧ jsLt (key c) m = true
          ∧ (∀ p ∈ l₁, feas p = true → jsSame (key p) (key c) = false)) := by
  intro l
  induction l with
  | nil =>
    intro b m
    refine ⟨by simp, Or.inl rfl, Or.inl rfl⟩
  | cons c t ih =>
    intro b m
    by_cases hc : (feas c && jsLt (key c) m) = true
    · -- the head strictly improves the running minimum and is selected
      have hstep : selStep feas key (b, m) c = (some c, key c) := by
        simp [selStep, hc]
      have hrw : selFold feas key (c :: t) (b, m) = selFold feas key t (some c, key c) := by
        rw [selFold_cons, hstep]
      obtain ⟨hfc, hlc⟩ := by simpa [Bool.and_eq_true] using hc
      obtain ⟨ih1, ih2, ih3⟩ := ih (some c) (key c)
      refine ⟨?_, ?_, ?_⟩
      · intro p hp hfp
        rw [hrw]
        rcases List.mem_cons.mp hp with hpc | hpt
        · subst hpc
          rcases ih2 with h2 | h2
          · rw [h2]; exact jsLt_irrefl _
          · exact jsLt_asymm h2
        · exact ih1 p hpt hfp
      · rw [hrw]
        rcases ih2 with h2 | h2
        · refine Or.inr ?_
          rw [h2]; exact hlc
        · exact Or.inr (jsLt_trans h2 hlc)
      · rw [hrw]
        rcases ih3 with h3 | h3
        · exact Or.inr ⟨c, [], t, by simp, h3, hfc, hlc, by simp⟩
        · obtain ⟨c', l₁, l₂, hdec, hres, hfc', hlc', hties⟩ := h3
          refine Or.inr ⟨c', c :: l₁, l₂, by simp [hdec], hres, hfc',
            jsLt_trans hlc' hlc, ?_⟩
          intro p hp hfp
          rcases List.mem_cons.mp hp with hpc | hpl
          · subst hpc
            by_contra hsame
            have hsame' : jsSame (key p) (key c') = true := by
              revert hsame; cases jsSame (key p) (key c') <;> simp
            have h5 : jsLt (key c') (key p) = jsLt (key c') (key c') :=
              jsSame_lt_right hsame' _
            rw [jsLt_irrefl] at h5
            rw [h5] at hlc'
            simp at hlc'
          · exact hties p hpl hfp
    · -- the head does not improve; the state passes through unchanged
      have hstep : selStep feas key (b, m) c = (b, m) := by
        simp [selStep, hc]
      have hrw : selFold feas key (c :: t) (b, m) = selFold feas key t (b, m) := by
        rw [selFold_cons, hstep]
      obtain ⟨ih1, ih2, ih3⟩ := ih b m
      have hcm : feas c = true → jsLt (key c) m = false := by
        intro hfc
        revert hc
        cases h : jsLt (key c) m <;> simp [hfc]
      refine ⟨?_, ?_, ?_⟩
      · intro p hp hfp
        rw [hrw]
        rcases List.mem_cons.mp hp with hpc | hpt
        · subst hpc
          rcases ih2 with h2 | h2
          · rw [h2]; exact hcm hfp
          · by_contra hlt
            have hlt' : jsLt (key p) (selFold feas key t (b, m)).2 = true := by
              revert hlt; cases jsLt (key p) (selFold feas key t (b, m)).2 <;> simp
            have := jsLt_trans hlt' h2
            rw [hcm hfp] at this
            exact Bool.false_ne_true this
        · exact ih1 p hpt hfp
      · rw [hrw]; exact ih2
      · rw [hrw]
        rcases ih3 with h3 | h3
        · exact Or.inl h3
        · obtain ⟨c', l₁, l₂, hdec, hres, hfc', hlc', hties⟩ := h3
          refine Or.inr ⟨c', c :: l₁, l₂, by simp [hdec], hres, hfc', hlc', ?_⟩
          intro p hp hfp
          rcases List.mem_cons.mp hp with hpc | hpl
          · subst hpc
            by_contra hsame
            have hsame' : jsSame (key p) (key c') = true := by
              revert hsame; cases jsSame (key p) (key c') <;> simp
            have h5 : jsLt (key p) m = jsLt (key c') m := jsSame_lt_left hsame' _
            rw [hcm hfp, hlc'] at h5
            simp at h5
          · exact hties p hpl hfp

end SelFold

/- Helper lemmas connecting the optimizer fold to the generic selection fold
and characterizing the design loop. -/

theorem searchFold_split (M : MathOps) (env : Dphx.SearchEnv) :
    ∀ (l : List (Nat × Nat)) (bm : Option Dphx.Candidate × JSVal)
      (logs : List Dphx.DPHXLog),
    l.foldl (Dphx.searchStep M env) (bm, logs)
      = (selFold (Dphx.feasibleB env) Dphx.key (l.map (Dphx.evalPair M env)) bm,
         logs ++ l.map (fun ij => Dphx.logOf (Dphx.evalPair M env ij))) := by
  intro l
  induction l with
  | nil => intro bm logs; simp [selFold]
  | cons ij t ih =>
    intro bm logs
    rw [List.foldl_cons]
    have hstep : Dphx.searchStep M env (bm, logs) ij
        = (selStep (Dphx.feasibleB env) Dphx.key bm (Dphx.evalPair M env ij),
           logs ++ [Dphx.logOf (Dphx.evalPair M env ij)]) := rfl
    rw [hstep, ih]
    simp [selFold_cons]

theorem designAux_iter_le (M : MathOps) (S T : Sthx2.FluidT)
    (D : Sthx2.DesignParams) (Q L : JSVal) :
    ∀ (fuel i : Nat) (U : JSVal) (logs : List Sthx2.DesignLog),
    Sthx2.iterCount (Sthx2.resLogs (Sthx2.designAux M S T D Q L fuel i U logs))
      ≤ Sthx2.iterCount logs + fuel := by
  intro fuel
  induction fuel with
  | zero =>
    intro i U logs
    simp [Sthx2.designAux, Sthx2.resLogs, Sthx2.iterCount, Sthx2.isIter,
      List.filter_append]
  | succ fuel ih =>
    intro i U logs
    rw [Sthx2.designAux]
    by_cases hc : jsLt (jsAbs (Sthx2.designTrial M S T D Q L U).err) (jn 1 10) = true
    · rw [if_pos hc]
      simp [Sthx2.resLogs, Sthx2.iterCount, Sthx2.isIter, List.filter_append]
    · rw [if_neg hc]
      have := ih (i+1)
        (jsAdd (jsMul (jn 1 2) U) (jsMul (jn 1 2) (Sthx2.designTrial M S T D Q L U).rating.U_clean))
        (logs ++ [Sthx2.DesignLog.iter (i+1) U (Sthx2.designTrial M S T D Q L U).Ds
          (Sthx2.designTrial M S T D Q L U).rating.U_clean (Sthx2.designTrial M S T D Q L U).err])
      have hcount : Sthx2.iterCount (logs ++ [Sthx2.DesignLog.iter (i+1) U
          (Sthx2.designTrial M S T D Q L U).Ds
          (Sthx2.designTrial M S T D Q L U).rating.U_clean
          (Sthx2.designTrial M S T D Q L U).err]) = Sthx2.iterCount logs + 1 := by
        simp [Sthx2.iterCount, Sthx2.isIter, List.filter_append]
      omega

theorem designAux_nonconverged (M : MathOps) (S T : Sthx2.FluidT)
    (D : Sthx2.DesignParams) (Q L : JSVal) :
    ∀ (fuel i : Nat) (U : JSVal) (logs : List Sthx2.DesignLog)
      (r : Sthx2.KernRating) (l : List Sthx2.DesignLog),
    Sthx2.designAux M S T D Q L fuel i U logs = .done r false l →
    r = Sthx2.performKernRating M S T (Sthx2.fallbackGeom D)
      ∧ Sthx2.iterCount l = Sthx2.iterCount logs + fuel := by
  intro fuel
  induction fuel with
  | zero =>
    intro i U logs r l h
    rw [Sthx2.designAux] at h
    injection h with h1 h2 h3
    subst h1; subst h3
    refine ⟨rfl, ?_⟩
    simp [Sthx2.iterCount, Sthx2.isIter, List.filter_append]
  | succ fuel ih =>
    intro i U logs r l h
    rw [Sthx2.designAux] at h
    by_cases hc : jsLt (jsAbs (Sthx2.designTrial M S T D Q L U).err) (jn 1 10) = true
    · rw [if_pos hc] at h
      injection h with h1 h2 h3
      exact absurd h2.symm Bool.false_ne_true
    · rw [if_neg hc] at h
      have := ih (i+1)
        (jsAdd (jsMul (jn 1 2) U) (jsMul (jn 1 2) (Sthx2.designTrial M S T D Q L U).rating.U_clean))
        (logs ++ [Sthx2.DesignLog.iter (i+1) U (Sthx2.designTrial M S T D Q L U).Ds
          (Sthx2.designTrial M S T D Q L U).rating.U_clean (Sthx2.designTrial M S T D Q L U).err])
        r l h
      refine ⟨this.1, ?_⟩
      have hcount : Sthx2.iterCount (logs ++ [Sthx2.DesignLog.iter (i+1) U
          (Sthx2.designTrial M S T D Q L U).Ds
          (Sthx2.designTrial M S T D Q L U).rating.U_clean
          (Sthx2.designTrial M S T D Q L U).err]) = Sthx2.iterCount logs + 1 := by
        simp [Sthx2.iterCount, Sthx2.isIter, List.filter_append]
      omega

theorem posNum_num {a : Frac} (h : 0 < a.n) : posNum (.num a) := ⟨a, rfl, h⟩

theorem posNum_jn (c : Int) (d : Nat) (h : 0 < c) : posNum (jn c d) :=
  ⟨frc c d, rfl, h⟩

theorem zeroNum_isNum {x : JSVal} (h : zeroNum x) : isNum x := by
  obtain ⟨a, rfl, _⟩ := h; exact ⟨a, rfl⟩

theorem zeroNum_num {a : Frac} (h : a.n = 0) : zeroNum (.num a) := ⟨a, rfl, h⟩

theorem posNum_isNum {x : JSVal} (h : posNum x) : isNum x := by
  obtain ⟨a, rfl, _⟩ := h; exact ⟨a, rfl⟩

theorem posNum_mul {x y : JSVal} (hx : posNum x) (hy : posNum y) :
    posNum (jsMul x y) := by
  obtain ⟨a, rfl, ha⟩ := hx
  obtain ⟨b, rfl, hb⟩ := hy
  exact ⟨a.mul b, rfl, mul_pos ha hb⟩

theorem posNum_div {x y : JSVal} (hx : posNum x) (hy : posNum y) :
    posNum (jsDiv x y) := by
  obtain ⟨a, rfl, ha⟩ := hx
  obtain ⟨b, rfl, hb⟩ := hy
  have hbne : ¬ (b.n = 0) := by omega
  refine ⟨a.div b, by simp [jsDiv, hbne], ?_⟩
  simp only [Frac.div, Frac.mul, Frac.inv, dif_neg hbne, if_pos hb]
  exact mul_pos ha (Int.ofNat_pos.mpr b.pos)

theorem zeroNum_mulL {x y : JSVal} (hx : zeroNum x) (hy : isNum y) :
    zeroNum (jsMul x y) := by
  obtain ⟨a, rfl, ha⟩ := hx
  obtain ⟨b, rfl⟩ := hy
  exact ⟨a.mul b, rfl, by simp [Frac.mul, ha]⟩

theorem zeroNum_mulR {x y : JSVal} (hx : isNum x) (hy : zeroNum y) :
    zeroNum (jsMul x y) := by
  obtain ⟨a, rfl⟩ := hx
  obtain ⟨b, rfl, hb⟩ := hy
  exact ⟨a.mul b, rfl, by simp [Frac.mul, hb]⟩

theorem zeroNum_div {x y : JSVal} (hx : zeroNum x) (hy : posNum y) :
    zeroNum (jsDiv x y) := by
  obtain ⟨a, rfl, ha⟩ := hx
  obtain ⟨b, rfl, hb⟩ := hy
  have hbne : ¬ (b.n = 0) := by omega
  refine ⟨a.div b, by simp [jsDiv, hbne], ?_⟩
  simp [Frac.div, Frac.mul, Frac.inv, dif_neg hbne, ha]

theorem zeroNum_jsSame {x : JSVal} (h : zeroNum x) : jsSame x (jn 0 1) = true := by
  obtain ⟨a, rfl, ha⟩ := h
  simp [jsSame, jn, frc, fracEq, ha]

theorem jsPow_zero_jnneg (M : MathOps) {x : JSVal} (h : zeroNum x) :
    jsPow M x (jn (-1) 5) = .inf true := by
  obtain ⟨a, rfl, ha⟩ := h
  simp [jsPow, jn, frc, ha]

theorem jsMul_pos_inf {x : JSVal} (h : posNum x) :
    jsMul x (.inf true) = .inf true := by
  obtain ⟨a, rfl, ha⟩ := h
  simp [jsMul, ha, ha.ne']

theorem jsMul_inf_pos {y : JSVal} (h : posNum y) :
    jsMul (.inf true) y = .inf true := by
  obtain ⟨b, rfl, hb⟩ := h
  simp [jsMul, hb, hb.ne']

theorem jsDiv_inf_pos {y : JSVal} (h : posNum y) :
    jsDiv (.inf true) y = .inf true := by
  obtain ⟨b, rfl, hb⟩ := h
  simp [jsDiv, hb, hb.ne']

theorem jsMul_inf_zero {y : JSVal} (h : zeroNum y) :
    jsMul (.inf true) y = .nan := by
  obtain ⟨b, rfl, hb⟩ := h
  simp [jsMul, hb]

theorem jsAdd_nanL (y : JSVal) : jsAdd .nan y = .nan := by
  cases y <;> rfl
theorem fracLt_le_false {a b : Frac} (h : fracLt a b = true) : fracLe b a = false := by
  simp only [fracLt, decide_eq_true_eq] at h
  simp only [fracLe, decide_eq_false_iff_not]
  omega

/- Helper lemmas for the equal-deltas LMTD analysis. -/

theorem fracSub_eq_zero {a b : Frac} (h : fracEq a b = true) : (a.sub b).n = 0 := by
  simp only [fracEq, decide_eq_true_eq] at h
  show a.n * (b.d : Int) + (-b.n) * a.d = 0
  rw [h]; ring

theorem fracEq_pos {a b : Frac} (h : fracEq a b = true) (ha : 0 < a.n) : 0 < b.n := by
  simp only [fracEq, decide_eq_true_eq] at h
  have h1 : 0 < a.n * (b.d : Int) := mul_pos ha (Int.ofNat_pos.mpr b.pos)
  rw [h] at h1
  nlinarith [Int.ofNat_pos.mpr a.pos]

theorem sthxLMTD_equal_nan (M : MathOps) {a b : Frac}
    (heq : fracEq a b = true) (ha : 0 < a.n) :
    jsMul (jsDiv (jsSub (JSVal.num a) (JSVal.num b))
      (jsLog M (jsDiv (JSVal.num a) (JSVal.num b)))) (jn 9 10) = .nan := by
  have hzn : (a.sub b).n = 0 := fracSub_eq_zero heq
  have hbn : 0 < b.n := fracEq_pos heq ha
  have d1 : jsSub (JSVal.num a) (JSVal.num b) = JSVal.num (a.sub b) := rfl
  have d2 : jsDiv (JSVal.num a) (JSVal.num b) = JSVal.num (a.div b) := by
    simp [jsDiv, hbn.ne']
  rw [d1, d2]
  have hdivn : 0 < (a.div b).n := by
    simp only [Frac.div, Frac.mul, Frac.inv, dif_neg hbn.ne', if_pos hbn]
    exact mul_pos ha (Int.ofNat_pos.mpr b.pos)
  have hone : fracEq (a.div b) Frac.one = true := by
    simp only [fracEq, decide_eq_true_eq] at heq
    have hnat : (b.n.natAbs : Int) = b.n := Int.natAbs_of_nonneg hbn.le
    simp only [Frac.div, Frac.mul, Frac.inv, dif_neg hbn.ne', if_pos hbn,
      fracEq, Frac.one, frc, decide_eq_true_eq]
    push_cast [hnat]
    simp only [max_self]
    linear_combination heq
  have d3 : jsLog M (JSVal.num (a.div b)) = JSVal.num Frac.zero := by
    simp only [jsLog]
    rw [if_neg (by omega), if_pos hone]
  rw [d3]
  have d4 : jsDiv (JSVal.num (a.sub b)) (JSVal.num Frac.zero) = JSVal.nan := by
    simp [jsDiv, Frac.zero, frc, hzn]
  rw [d4]
  rfl

/-- The zero-tube-flow trace of the Kern rating, for an arbitrary oracle with
a positive pi: the tube Reynolds number is exactly zero and the tube-side
pressure drop is NaN. -/
theorem kernRating_zero_flow_trace (M : MathOps) (hpi : fracLt (frc 0 1) M.pi = true) :
    jsSame (Sthx2.performKernRating M S0 T0 G2).Re_t (jn 0 1) = true
    ∧ (Sthx2.performKernRating M S0 T0 G2).dP_t.isNaN = true := by
  have hn : 0 < M.pi.n := by simpa [fracLt, frc] using hpi
  have hAT : posNum (jsMul (jsDiv (jsMul (jsMul (JSVal.num M.pi) (jn 16 1000)) (jn 16 1000)) (jn 4 1))
      (jsDiv (jn 100 1) (jn 2 1))) := by
    apply posNum_mul
    · apply posNum_div
      · exact posNum_mul (posNum_mul (posNum_num hn) (posNum_jn 16 1000 (by decide))) (posNum_jn 16 1000 (by decide))
      · exact posNum_jn 4 1 (by decide)
    · exact posNum_div (posNum_jn 100 1 (by decide)) (posNum_jn 2 1 (by decide))
  have hVT : zeroNum (jsDiv (jsDiv (JSVal.num (frc 0 1))
      (jsMul (jsDiv (jsMul (jsMul (JSVal.num M.pi) (jn 16 1000)) (jn 16 1000)) (jn 4 1))
        (jsDiv (jn 100 1) (jn 2 1)))) (JSVal.num (frc 1000 1))) :=
    zeroNum_div (zeroNum_div (zeroNum_num rfl) hAT) (posNum_num (by decide))
  have hRE : zeroNum (jsDiv (jsMul (jsMul (JSVal.num (frc 1000 1))
      (jsDiv (jsDiv (JSVal.num (frc 0 1))
        (jsMul (jsDiv (jsMul (jsMul (JSVal.num M.pi) (jn 16 1000)) (jn 16 1000)) (jn 4 1))
          (jsDiv (jn 100 1) (jn 2 1)))) (JSVal.num (frc 1000 1))))
      (jn 16 1000)) (JSVal.num (frc 1 1000))) :=
    zeroNum_div (zeroNum_mulL (zeroNum_mulR ⟨_, rfl⟩ hVT) ⟨_, rfl⟩) (posNum_num (by decide))
  constructor
  · simp only [Sthx2.performKernRating, S0, T0, G2, toJS]
    exact zeroNum_jsSame hRE
  · simp only [Sthx2.performKernRating, S0, T0, G2, toJS]
    rw [jsPow_zero_jnneg M hRE]
    rw [jsMul_pos_inf (posNum_jn 46 1000 (by decide))]
    rw [jsMul_pos_inf (posNum_jn 4 1 (by decide))]
    rw [jsMul_inf_pos (posNum_jn 3 1 (by decide))]
    rw [jsMul_inf_pos (posNum_jn 2 1 (by decide))]
    rw [jsDiv_inf_pos (posNum_jn 16 1000 (by decide))]
    have hhalf : isNum (jsMul (jn 1 2) (JSVal.num (frc 1000 1))) := ⟨_, rfl⟩
    rw [jsMul_inf_zero (zeroNum_mulL (zeroNum_mulR hhalf hVT) (zeroNum_isNum hVT))]
    rw [jsAdd_nanL]
    rfl

/-- Claim C1 (confirmed): in design mode the fixed-point loop performs at most
20 iterations (conjunct 1); a trial whose relative error
abs(U_calc - U_assumed) / U_assumed is within the 10 percent tolerance stops
the loop immediately, returning that trial rating flagged converged
(conjunct 2); otherwise the next guess is the damped average
0.5 * U_assumed + 0.5 * U_calc and the loop continues (conjunct 3). -/
theorem c1_design_loop_bounded :
    (∀ (M : MathOps) (S T : Sthx2.FluidT) (D : Sthx2.DesignParams),
      Sthx2.iterCountOf (Sthx2.runDesignIteration M S T D) ≤ 20)
    ∧ (∀ (M : MathOps) (S T : Sthx2.FluidT) (D : Sthx2.DesignParams) (Q L : JSVal)
        (fuel i : Nat) (U : JSVal) (logs : List Sthx2.DesignLog),
        jsLt (jsAbs (Sthx2.designTrial M S T D Q L U).err) (jn 1 10) = true →
        Sthx2.designAux M S T D Q L (fuel+1) i U logs
          = .done (Sthx2.designTrial M S T D Q L U).rating true
              (logs ++ [.iter (i+1) U (Sthx2.designTrial M S T D Q L U).Ds
                (Sthx2.designTrial M S T D Q L U).rating.U_clean
                (Sthx2.designTrial M S T D Q L U).err]))
    ∧ (∀ (M : MathOps) (S T : Sthx2.FluidT) (D : Sthx2.DesignParams) (Q L : JSVal)
        (fuel i : Nat) (U : JSVal) (logs : List Sthx2.DesignLog),
        jsLt (jsAbs (Sthx2.designTrial M S T D Q L U).err) (jn 1 10) = false →
        Sthx2.designAux M S T D Q L (fuel+1) i U logs
          = Sthx2.designAux M S T D Q L fuel (i+1)
              (jsAdd (jsMul (jn 1 2) U)
                (jsMul (jn 1 2) (Sthx2.designTrial M S T D Q L U).rating.U_clean))
              (logs ++ [.iter (i+1) U (Sthx2.designTrial M S T D Q L U).Ds
                (Sthx2.designTrial M S T D Q L U).rating.U_clean
                (Sthx2.designTrial M S T D Q L U).err])) := by
  refine ⟨?_, ?_, ?_⟩
  · intro M S T D
    simp only [Sthx2.runDesignIteration]
    split
    · simp [Sthx2.iterCountOf, Sthx2.resLogs, Sthx2.iterCount]
    · have h := designAux_iter_le M S T D (Sthx2.calculateDuty S T)
        (Sthx2.calculateLMTD M D.hot D.cold).1 Sthx2.MaxIter 0
        (JSVal.num (Sthx2.startU D)) [Sthx2.DesignLog.start]
      simp only [Sthx2.iterCountOf]
      simpa [Sthx2.iterCount, Sthx2.isIter, Sthx2.MaxIter] using h
  · intro M S T D Q L fuel i U logs h
    rw [Sthx2.designAux, if_pos h]
  · intro M S T D Q L fuel i U logs h
    have hc : ¬ (jsLt (jsAbs (Sthx2.designTrial M S T D Q L U).err) (jn 1 10) = true) := by
      simp [h]
    rw [Sthx2.designAux, if_neg hc]

/-- Witness instantiating all three conjuncts of C1: the non-converging run
stays within the bound, a zero-duty trial with the exact fixed point stops
converged after one iteration, and the zero-flow trial takes the damped
update step. -/
theorem c1_design_loop_bounded_witness :
    Sthx2.iterCountOf (Sthx2.runDesignIteration Mtriv S0 T0 D0) ≤ 20
    ∧ Sthx2.designAux Mtriv S0 S0 D0 (jn 0 1) (jn 1 1) 1 0 UW []
        = .done (Sthx2.designTrial Mtriv S0 S0 D0 (jn 0 1) (jn 1 1) UW).rating true
            [.iter 1 UW (Sthx2.designTrial Mtriv S0 S0 D0 (jn 0 1) (jn 1 1) UW).Ds
              (Sthx2.designTrial Mtriv S0 S0 D0 (jn 0 1) (jn 1 1) UW).rating.U_clean
              (Sthx2.designTrial Mtriv S0 S0 D0 (jn 0 1) (jn 1 1) UW).err]
    ∧ Sthx2.designAux Mtriv S0 T0 D0 (jn 1 1) (jn 1 1) 1 0 (jn 500 1) []
        = Sthx2.designAux Mtriv S0 T0 D0 (jn 1 1) (jn 1 1) 0 1
            (jsAdd (jsMul (jn 1 2) (jn 500 1))
              (jsMul (jn 1 2) (Sthx2.designTrial Mtriv S0 T0 D0 (jn 1 1) (jn 1 1) (jn 500 1)).rating.U_clean))
            [.iter 1 (jn 500 1) (Sthx2.designTrial Mtriv S0 T0 D0 (jn 1 1) (jn 1 1) (jn 500 1)).Ds
              (Sthx2.designTrial Mtriv S0 T0 D0 (jn 1 1) (jn 1 1) (jn 500 1)).rating.U_clean
              (Sthx2.designTrial Mtriv S0 T0 D0 (jn 1 1) (jn 1 1) (jn 500 1)).err] :=
  ⟨c1_design_loop_bounded.1 Mtriv S0 T0 D0,
   c1_design_loop_bounded.2.1 Mtriv S0 S0 D0 (jn 0 1) (jn 1 1) 0 0 UW [] (by decide),
   c1_design_loop_bounded.2.2 Mtriv S0 T0 D0 (jn 1 1) (jn 1 1) 0 0 (jn 500 1) [] (by decide)⟩

/-- Claim C2 (corrected): a design run exhausting the 20-iteration budget
without converging does not fail, returns converged = false, and its log
holds exactly 20 iteration entries; however the returned rating is not the
last computed candidate, but a fresh rating of the hard-coded fallback
geometry (shell diameter 0.6 m, 200 tubes). -/
theorem c2_nonconverged_fallback (M : MathOps) (S T : Sthx2.FluidT)
    (D : Sthx2.DesignParams) (r : Sthx2.KernRating) (l : List Sthx2.DesignLog)
    (h : Sthx2.runDesignIteration M S T D = .done r false l) :
    r = Sthx2.performKernRating M S T (Sthx2.fallbackGeom D)
    ∧ Sthx2.iterCount l = 20 := by
  unfold Sthx2.runDesignIteration at h
  by_cases hq : jsFalsy (Sthx2.calculateDuty S T) = true
  · rw [if_pos hq] at h
    simp at h
  · rw [if_neg hq] at h
    have hm := designAux_nonconverged M S T D (Sthx2.calculateDuty S T)
      ((Sthx2.calculateLMTD M D.hot D.cold).1) Sthx2.MaxIter 0
      (.num (Sthx2.startU D)) [.start] r l h
    refine ⟨hm.1, ?_⟩
    have h2 := hm.2
    norm_num [Sthx2.iterCount, Sthx2.isIter, Sthx2.MaxIter] at h2
    exact h2

/-- Counterexample for C2 as written: the zero-tube-flow run never converges,
ends non-converged after exactly 20 logged iterations (22 log lines with the
banner and warning), and the returned rating uses the 0.6 m fallback shell
even though no logged iteration ever rated that shell - the result is not the
last computed candidate. -/
theorem c2_nonconverged_cx :
    Sthx2.resConverged (Sthx2.runDesignIteration Mtriv S0 T0 D0) = some false
    ∧ Sthx2.iterCountOf (Sthx2.runDesignIteration Mtriv S0 T0 D0) = 20
    ∧ (Sthx2.resLogs (Sthx2.runDesignIteration Mtriv S0 T0 D0)).length = 22
    ∧ (match Sthx2.resRating (Sthx2.runDesignIteration Mtriv S0 T0 D0) with
        | some r => jsSame r.Geometry.Ds (jn 6 10)
        | none => false) = true
    ∧ ((Sthx2.resLogs (Sthx2.runDesignIteration Mtriv S0 T0 D0)).all (fun e =>
        match e with
        | .iter _ _ ds _ _ => !(fracEq ds (frc 6 10))
        | _ => true)) = true := by
  refine ⟨by decide, by decide, by decide, by decide, by decide⟩

/-- Witness instantiating the amended C2 theorem on the concrete
non-converging zero-flow run. -/
theorem c2_nonconverged_fallback_witness :
    rW = Sthx2.performKernRating Mtriv S0 T0 (Sthx2.fallbackGeom D0)
    ∧ Sthx2.iterCount lW = 20 :=
  c2_nonconverged_fallback Mtriv S0 T0 D0 rW lW rfl

/-- Claim C3 (confirmed): the double-pipe optimizer returns a feasible rated
candidate of minimum required area - no feasible rated pair has a strictly
smaller area - and with equal areas the earlier-enumerated pair wins: every
feasible candidate logged before the winner has a different area. With no
feasible pair the search returns the no-feasible-design error carrying the
full trial log. -/
theorem c3_optimizer_minimal (M : MathOps) (env : Dphx.SearchEnv) :
    ((∀ p ∈ Dphx.clearPairs.map (Dphx.evalPair M env), Dphx.feasibleB env p = false) →
      Dphx.searchPhase M env
        = .errorLogs Dphx.noFeasMsg
            ((Dphx.clearPairs.map (Dphx.evalPair M env)).map Dphx.logOf))
    ∧ (∀ (b : Dphx.Candidate) (logs : List Dphx.DPHXLog),
        Dphx.searchPhase M env = .success b logs →
        b ∈ Dphx.clearPairs.map (Dphx.evalPair M env)
        ∧ Dphx.feasibleB env b = true
        ∧ (∀ p ∈ Dphx.clearPairs.map (Dphx.evalPair M env),
            Dphx.feasibleB env p = true → jsLt p.A_req b.A_req = false)
        ∧ ∃ l₁ l₂, Dphx.clearPairs.map (Dphx.evalPair M env) = l₁ ++ b :: l₂
            ∧ ∀ p ∈ l₁, Dphx.feasibleB env p = true
                → jsSame p.A_req b.A_req = false) := by
  have hsplit := searchFold_split M env Dphx.clearPairs (none, JSVal.inf true) []
  constructor
  · intro hinf
    simp only [Dphx.searchPhase]
    rw [hsplit, selFold_all_infeasible _ _ _ _ hinf]
    simp [List.map_map, Function.comp]
  · intro b logs hsucc
    simp only [Dphx.searchPhase] at hsucc
    rw [hsplit] at hsucc
    obtain ⟨h1, _, h3⟩ := selFold_spec (Dphx.feasibleB env) Dphx.key
      (Dphx.clearPairs.map (Dphx.evalPair M env)) none (JSVal.inf true)
    rcases h3 with h3 | ⟨c, l₁, l₂, hl, hfin, hfc, _, htie⟩
    · rw [h3] at hsucc
      simp at hsucc
    · rw [hfin] at hsucc
      simp only [] at hsucc
      obtain ⟨hb, _⟩ := by simpa using hsucc
      subst hb
      refine ⟨?_, hfc, ?_, l₁, l₂, hl, htie⟩
      · rw [hl]
        exact List.mem_append.mpr (Or.inr (List.mem_cons_self c l₂))
      · intro p hp hf
        have := h1 p hp hf
        rw [hfin] at this
        exact this

/-- Witness for C3: the 1 Pa pressure-drop environment makes every rated pair
infeasible and produces the error outcome, while the balanced environment
returns a feasible best candidate from the rated list. -/
theorem c3_optimizer_minimal_witness :
    (Dphx.searchPhase Mtriv envX
      = .errorLogs Dphx.noFeasMsg
          ((Dphx.clearPairs.map (Dphx.evalPair Mtriv envX)).map Dphx.logOf))
    ∧ Dphx.feasibleB envW bW = true
    ∧ bW ∈ Dphx.clearPairs.map (Dphx.evalPair Mtriv envW) :=
  have hs : Dphx.searchPhase Mtriv envW
      = .success bW (Dphx.resultLogs (Dphx.searchPhase Mtriv envW)) := rfl
  ⟨(c3_optimizer_minimal Mtriv envX).1 (by decide),
   ((c3_optimizer_minimal Mtriv envW).2 bW (Dphx.resultLogs (Dphx.searchPhase Mtriv envW)) hs).2.1,
   ((c3_optimizer_minimal Mtriv envW).2 bW (Dphx.resultLogs (Dphx.searchPhase Mtriv envW)) hs).1⟩

/-- Claim C4 (corrected): the trial log records exactly the clearance-passing
pairs in enumeration order - the 5 mm clearance continue fires before the log
push - so every search logs 38 entries, while 45 ordered catalog pairs have a
strictly smaller inner pipe. -/
theorem c4_log_clearance_pairs (M : MathOps) (env : Dphx.SearchEnv) :
    Dphx.resultLogs (Dphx.searchPhase M env)
      = (Dphx.clearPairs.map (Dphx.evalPair M env)).map Dphx.logOf
    ∧ Dphx.clearPairs.length = 38 ∧ Dphx.allPairs.length = 45 := by
  refine ⟨?_, by decide, by decide⟩
  have hsplit := searchFold_split M env Dphx.clearPairs (none, JSVal.inf true) []
  simp only [Dphx.searchPhase]
  rw [hsplit]
  rcases hsel : selFold (Dphx.feasibleB env) Dphx.key
      (Dphx.clearPairs.map (Dphx.evalPair M env)) (none, JSVal.inf true) with ⟨ob, m⟩
  cases ob with
  | none => simp [Dphx.resultLogs, List.map_map, Function.comp]
  | some b => simp [Dphx.resultLogs, List.map_map, Function.comp]

/-- Counterexample for C4 as written: the infeasible search with a 1 Pa
pressure-drop limit fails with the no-feasible error and a 38-entry trial
log, not one entry per each of the 45 ordered catalog pairs. -/
theorem c4_log_clearance_cx :
    (match Dphx.calculateDPHX Mtriv (some inpX) with
      | .ok (.errorLogs m logs) => (m == Dphx.noFeasMsg) && (logs.length == 38)
      | _ => false) = true
    ∧ Dphx.allPairs.length = 45
    ∧ Dphx.clearPairs.length = 38 := by
  refine ⟨by decide, by decide, by decide⟩

/-- Claim C5 (corrected): the double-pipe optimizer does fail early with
descriptive errors when the energy balance is underspecified (no mass flow at
all, or a missing mass flow without all four temperatures); but the
shell-and-tube duty helper never fails: with insufficient data on both
streams calculateDuty returns the hard-coded placeholder 100000 W and the
design loop proceeds. -/
theorem c5_energy_validation :
    (∀ (M : MathOps) (d : Dphx.DPHXInput), d.m_h = none → d.m_c = none →
      Dphx.calculateDPHX M (some d) = .ok (.error ("Provide at least one Mass Flow Rate.")))
    ∧ (∀ (M : MathOps) (d : Dphx.DPHXInput) (mc : Frac), d.m_h = none → d.m_c = some mc →
        (fracEq (d.T_h_out.getD (frc (-1) 1)) (frc (-1) 1)
          || fracEq (d.T_c_out.getD (frc (-1) 1)) (frc (-1) 1)) = true →
        Dphx.calculateDPHX M (some d)
          = .ok (.error ("To find Mass Flow, ALL 4 temperatures must be known.")))
    ∧ (∀ (M : MathOps) (d : Dphx.DPHXInput) (mh : Frac), d.m_h = some mh → d.m_c = none →
        (fracEq (d.T_h_out.getD (frc (-1) 1)) (frc (-1) 1)
          || fracEq (d.T_c_out.getD (frc (-1) 1)) (frc (-1) 1)) = true →
        Dphx.calculateDPHX M (some d)
          = .ok (.error ("To find Mass Flow, ALL 4 temperatures must be known.")))
    ∧ (∀ S T : Sthx2.FluidT,
        (Sthx2.truthy S.m && Sthx2.truthy S.Tin && Sthx2.truthy S.Tout) = false →
        (Sthx2.truthy T.m && Sthx2.truthy T.Tin && Sthx2.truthy T.Tout) = false →
        Sthx2.calculateDuty S T = jn 100000 1) := by
  refine ⟨?_, ?_, ?_, ?_⟩
  · intro M d h1 h2
    simp [Dphx.calculateDPHX, Dphx.bodyDPHX, Dphx.calcBody, Dphx.energyPhase, h1, h2]
  · intro M d mc h1 h2 h3
    simp [Dphx.calculateDPHX, Dphx.bodyDPHX, Dphx.calcBody, Dphx.energyPhase, h1, h2, h3]
  · intro M d mh h1 h2 h3
    simp [Dphx.calculateDPHX, Dphx.bodyDPHX, Dphx.calcBody, Dphx.energyPhase, h1, h2, h3]
  · intro S T h1 h2
    simp [Sthx2.calculateDuty, h1, h2]

/-- Counterexample for C5 as written: with both outlet temperatures missing
the duty is not computable from the streams, yet the shell-and-tube design
run silently uses the placeholder duty 100000 and converges successfully
after 14 iterations instead of failing before the iteration. -/
theorem c5_duty_placeholder_cx :
    (Sthx2.truthy S1.Tout || Sthx2.truthy T1.Tout) = false
    ∧ jsSame (Sthx2.calculateDuty S1 T1) (jn 100000 1) = true
    ∧ Sthx2.resConverged (Sthx2.runDesignIteration Mtriv S1 T1 D1) = some true
    ∧ Sthx2.iterCountOf (Sthx2.runDesignIteration Mtriv S1 T1 D1) = 14 := by
  refine ⟨by decide, by decide, by decide, by decide⟩

/-- Witness instantiating the amended C5 theorem: both double-pipe early
errors fire on concrete underspecified inputs, and the placeholder duty is
returned for the concrete data-poor streams. -/
theorem c5_energy_validation_witness :
    Dphx.calculateDPHX Mtriv (some inpNoFlows)
      = .ok (.error ("Provide at least one Mass Flow Rate."))
    ∧ Dphx.calculateDPHX Mtriv (some inpOneFlow)
      = .ok (.error ("To find Mass Flow, ALL 4 temperatures must be known."))
    ∧ Sthx2.calculateDuty S1 T1 = jn 100000 1 :=
  ⟨c5_energy_validation.1 Mtriv inpNoFlows rfl rfl,
   c5_energy_validation.2.1 Mtriv inpOneFlow (frc 1 1) rfl rfl (by decide),
   c5_energy_validation.2.2.2 S1 T1 (by decide) (by decide)⟩

/-- Claim C6 (corrected): with equal positive temperature differences the
double-pipe optimizer and the second double-pipe calculator both return
delta-T-1 exactly; but the shell-and-tube calculateLMTD has no equal-deltas
guard, so its LMTD is NaN: the quotient 0 / log 1 = 0 / 0, times the 0.9
correction factor. -/
theorem c6_lmtd_equal_deltas (M : MathOps) (t1 t2 t3 t4 : Frac)
    (heq : fracEq (t1.sub t4) (t2.sub t3) = true)
    (hpos : fracLt (frc 0 1) (t1.sub t4) = true) :
    Dphx.dphxLMTD M (JSVal.num (t1.sub t4)) (JSVal.num (t2.sub t3)) = JSVal.num (t1.sub t4)
    ∧ Dphx2.lmtdBlock M (JSVal.num (t1.sub t4)) (JSVal.num (t2.sub t3)) = .ok (JSVal.num (t1.sub t4))
    ∧ (Sthx2.calculateLMTD M
        ⟨none, none, none, none, none, some t1, some t2, none, none⟩
        ⟨none, none, none, none, none, some t3, some t4, none, none⟩).1 = .nan := by
  have han : 0 < (t1.sub t4).n := by simpa [fracLt, frc] using hpos
  have hst : jsStrictEq (JSVal.num (t1.sub t4)) (JSVal.num (t2.sub t3)) = true := by
    simpa [jsStrictEq] using heq
  have hzn : ((t1.sub t4).sub (t2.sub t3)).n = 0 := fracSub_eq_zero heq
  refine ⟨?_, ?_, ?_⟩
  · simp [Dphx.dphxLMTD, hst]
  · have hlt : jsLt (jsAbs (jsSub (JSVal.num (t1.sub t4)) (JSVal.num (t2.sub t3)))) (jn 1 100000) = true := by
      have : jsSub (JSVal.num (t1.sub t4)) (JSVal.num (t2.sub t3))
          = JSVal.num ((t1.sub t4).sub (t2.sub t3)) := rfl
      rw [this]
      have hd := ((t1.sub t4).sub (t2.sub t3)).pos
      simp [jsLt, jsAbs, Frac.abs, hzn, fracLt, jn, frc]
      omega
    simp [Dphx2.lmtdBlock, hst, hlt]
  · have e0 : (Sthx2.calculateLMTD M
        ⟨none, none, none, none, none, some t1, some t2, none, none⟩
        ⟨none, none, none, none, none, some t3, some t4, none, none⟩).1
      = jsMul (jsDiv (jsSub (JSVal.num (t1.sub t4)) (JSVal.num (t2.sub t3)))
          (jsLog M (jsDiv (JSVal.num (t1.sub t4)) (JSVal.num (t2.sub t3))))) (jn 9 10) := rfl
    rw [e0]
    exact sthxLMTD_equal_nan M heq han

/-- Counterexample for C6 as written: hot 80 to 60 against cold 20 to 40
gives both temperature differences exactly 40, and the shell-and-tube LMTD
evaluates to NaN rather than 40. -/
theorem c6_lmtd_equal_cx :
    jsSame (jsSub (toJS hotEx.Tin) (toJS coldEx.Tout)) (jn 40 1) = true
    ∧ jsSame (jsSub (toJS hotEx.Tout) (toJS coldEx.Tin)) (jn 40 1) = true
    ∧ (Sthx2.calculateLMTD Mtriv hotEx coldEx).1.isNaN = true := by
  refine ⟨by decide, by decide, by decide⟩

/-- Witness instantiating the amended C6 theorem at the concrete equal-delta
temperatures 80/60 against 20/40. -/
theorem c6_lmtd_equal_deltas_witness :
    Dphx.dphxLMTD Mtriv (JSVal.num ((frc 80 1).sub (frc 40 1)))
      (JSVal.num ((frc 60 1).sub (frc 20 1))) = JSVal.num ((frc 80 1).sub (frc 40 1))
    ∧ Dphx2.lmtdBlock Mtriv (JSVal.num ((frc 80 1).sub (frc 40 1)))
      (JSVal.num ((frc 60 1).sub (frc 20 1))) = .ok (JSVal.num ((frc 80 1).sub (frc 40 1)))
    ∧ (Sthx2.calculateLMTD Mtriv
        ⟨none, none, none, none, none, some (frc 80 1), some (frc 60 1), none, none⟩
        ⟨none, none, none, none, none, some (frc 20 1), some (frc 40 1), none, none⟩).1 = .nan :=
  c6_lmtd_equal_deltas Mtriv (frc 80 1) (frc 60 1) (frc 20 1) (frc 40 1) (by decide) (by decide)

/-- Claim C7 (corrected): the Kern rating performs no validation at all: with
zero tube-side flow the returned object carries Re_t = 0 and a NaN tube-side
pressure drop (for every oracle with positive pi), and concretely an infinite
required area, a NaN overdesign percentage and a zero clean coefficient - all
silently propagated in a normally returned result instead of an explicit
failure. -/
theorem c7_zero_flow_propagation :
    (∀ M : MathOps, fracLt (frc 0 1) M.pi = true →
      jsSame (Sthx2.performKernRating M S0 T0 G2).Re_t (jn 0 1) = true
      ∧ (Sthx2.performKernRating M S0 T0 G2).dP_t.isNaN = true)
    ∧ (Sthx2.performKernRating Mtriv S0 T0 G2).Area_Required = JSVal.inf true
    ∧ (Sthx2.performKernRating Mtriv S0 T0 G2).Overdesign_Pct.isNaN = true
    ∧ jsSame (Sthx2.performKernRating Mtriv S0 T0 G2).U_clean (jn 0 1) = true :=
  ⟨kernRating_zero_flow_trace, by decide, by decide, by decide⟩

/-- Counterexample for C7 as written: the rating-mode call of the second
calculateSTHX with a zero-flow tube stream returns an ok result object
carrying Re_t = 0, a NaN pressure drop, an infinite required area and a NaN
overdesign percentage - no failure is raised. -/
theorem c7_zero_flow_cx :
    (match Sthx2.calculateSTHX_Pro Mtriv ratingInp with
      | .ok (.ratingRes r) =>
        jsSame r.Re_t (jn 0 1) && r.dP_t.isNaN && jsIsPosInf r.Area_Required
          && r.Overdesign_Pct.isNaN
      | _ => false) = true := by decide

/-- Witness instantiating the quantified part of the amended C7 theorem at
the concrete oracle. -/
theorem c7_zero_flow_propagation_witness :
    jsSame (Sthx2.performKernRating Mtriv S0 T0 G2).Re_t (jn 0 1) = true
    ∧ (Sthx2.performKernRating Mtriv S0 T0 G2).dP_t.isNaN = true :=
  c7_zero_flow_propagation.1 Mtriv (by decide)

/-- Claim C8 (corrected): the optimizer calculateDPHX, the second double-pipe
calculateDPHX and the first calculateSTHX never let an exception escape
(their bodies are wrapped in try/catch and even a null input yields an
error-string result); but the second shell-and-tube entry point has no
try/catch, and a malformed input makes a TypeError escape to the caller. -/
theorem c8_exception_containment :
    (∀ (M : MathOps) (dat : Option Dphx.DPHXInput), exOk (Dphx.calculateDPHX M dat) = true)
    ∧ (∀ (M : MathOps) (dat : Option Dphx2.Input), exOk (Dphx2.calculateDPHX M dat) = true)
    ∧ (∀ (M : MathOps) (dat : Option Sthx1.Input), exOk (Sthx1.calculateSTHX M dat) = true)
    ∧ (∀ M : MathOps, exOk (Sthx2.calculateSTHX_Pro M emptyV2) = false) := by
  refine ⟨fun M dat => ?_, fun M dat => ?_, fun M dat => ?_, fun M => rfl⟩
  · cases dat <;> rfl
  · cases dat <;> rfl
  · cases dat <;> rfl

/-- Counterexample for C8 as written: calling the second calculateSTHX on an
input with no fluid objects throws a TypeError instead of returning a result
object. -/
theorem c8_exception_cx :
    exOk (Sthx2.calculateSTHX_Pro Mtriv emptyV2) = false
    ∧ (match Sthx2.calculateSTHX_Pro Mtriv emptyV2 with
       | .error (.typeError _) => true
       | _ => false) = true := by
  exact ⟨rfl, rfl⟩

/-- Claim C9 (confirmed): feasibility is exactly the hard-coded 4.0 m/s bound
applied to both velocities, together with the single caller pressure-drop
limit applied to both sides; that limit is allowable_dp_inner with the 70000
Pa default when absent, and no per-side or caller-configurable velocity
constraint exists. -/
theorem c9_velocity_dp_limits :
    (∀ (env : Dphx.SearchEnv) (c : Dphx.Candidate),
      Dphx.feasibleB env c =
        ((jsLt c.v_in (jn 4 1) && jsLt c.v_ann (jn 4 1)) &&
         (jsLt c.dP_in env.max_dp && jsLt c.dP_ann env.max_dp)))
    ∧ (∀ (d : Dphx.DPHXInput) (Q m_h m_c tho tco L : JSVal),
        (Dphx.mkEnv d Q m_h m_c tho tco L).max_dp
          = JSVal.num (d.allowable_dp_inner.getD (frc 70000 1)))
    ∧ (∀ (d : Dphx.DPHXInput) (Q m_h m_c tho tco L : JSVal),
        d.allowable_dp_inner = none →
        (Dphx.mkEnv d Q m_h m_c tho tco L).max_dp = jn 70000 1) := by
  refine ⟨fun env c => rfl, fun d Q mh mc th tc L => rfl, fun d Q mh mc th tc L h => ?_⟩
  simp [Dphx.mkEnv, h, jn]

/-- Witness instantiating the defaulting conjunct of C9 on a concrete input
without a pressure-drop limit. -/
theorem c9_velocity_dp_limits_witness :
    (Dphx.mkEnv inpW (jn 50 1) (jn 1 1) (jn 1 1) (jn 50 1) (jn 70 1) (jn 30 1)).max_dp
      = jn 70000 1 :=
  c9_velocity_dp_limits.2.2 inpW (jn 50 1) (jn 1 1) (jn 1 1) (jn 50 1) (jn 70 1) (jn 30 1) rfl

/-- Claim C10 (confirmed): whenever the estimated shell diameter strictly
exceeds every TEMA catalog entry, the snap helper silently returns the
largest catalog shell, 60 inches = 1.524 m - a catalog member and an upper
bound of the whole catalog - with no error or warning. -/
theorem c10_shell_fallback (q : Frac) (h : ∀ s ∈ Sthx2.TEMA_shells, fracLt s q = true) :
    fracEq (Sthx2.shellSnap (JSVal.num q)) (frc 1524 1000) = true
    ∧ ((frc 60 1).mul (frc 254 10000)) ∈ Sthx2.TEMA_shells
    ∧ (∀ s ∈ Sthx2.TEMA_shells, fracLe s ((frc 60 1).mul (frc 254 10000)) = true) := by
  have hnone : Sthx2.TEMA_shells.find? (fun s => jsGe (JSVal.num s) (JSVal.num q)) = none := by
    apply List.find?_eq_none.mpr
    intro s hs
    have hf := fracLt_le_false (h s hs)
    simp [jsGe, jsLe, hf]
  refine ⟨?_, by decide, by decide⟩
  unfold Sthx2.shellSnap
  rw [hnone]
  decide

/-- Witness for C10 at the concrete estimate 2 m, beyond the whole
catalog. -/
theorem c10_shell_fallback_witness :
    fracEq (Sthx2.shellSnap (JSVal.num (frc 2 1))) (frc 1524 1000) = true :=
  (c10_shell_fallback (frc 2 1) (by decide)).1
